import Mathlib

/-!
Verification development for the career-conversation agent (`src/app.py`).

The file shallowly embeds the program's core: the JSON handling used for
tool arguments and evaluator output, the Pushover notification helper, the
tool dispatch of `Me.handle_tool_call`, the tool-call generation loop of
`Me.chat`, the evaluator `Me._evaluate_with_anthropic`, and the retry state
machine of `Me.chat`.  External model calls are modelled by oracles fixed in
advance: the generator model is a list of responses (one per call of the
generation loop), the evaluator transport is either a raised exception or a
parsed response body.

A central point of the embedding: the Python program mixes plain `dict`
messages with the OpenAI SDK response object appended by
`messages.append(tool_msg)` (line 383 / 411 of `src/app.py`).  That SDK
object is a pydantic model and does not support item access, so the
comprehension `[m for m in messages if m["role"] in (...)]` (line 391 / 416)
raises `TypeError` whenever a tool round occurred.  Messages are therefore
embedded as a sum of dict messages and API-object messages, and the
operations that subscript or JSON-serialize them are fallible.
-/

set_option linter.unusedVariables false
set_option maxRecDepth 16000

/-- JSON values as handled by the Python `json` module.  Numbers are
restricted to integers (the program only ever manipulates booleans and
strings inside JSON); unicode escapes and floats are not modelled. -/
inductive Json where
  | null : Json
  | bool (b : Bool) : Json
  | num (n : Int) : Json
  | str (s : String) : Json
  | arr (xs : List Json) : Json
  | obj (kvs : List (String × Json)) : Json

/-- Python `dict` lookup on a JSON object's association list (keys are unique
because `insertKV` is used everywhere a binding is added). -/
def kwLookup (kvs : List (String × Json)) (k : String) : Option Json :=
  (kvs.find? (fun p => p.1 = k)).map (fun p => p.2)

/-- Python `dict` assignment `d[k] = v`: updates the value in place if the key
exists, otherwise appends the binding at the end (insertion order). -/
def insertKV : List (String × Json) → String → Json → List (String × Json)
  | [], k, v => [(k, v)]
  | (k', v') :: rest, k, v =>
    if k' = k then (k, v) :: rest else (k', v') :: insertKV rest k v

/-- Whitespace skipped by the JSON parser. -/
def skipWs : List Char → List Char
  | c :: cs => if c = ' ' ∨ c = '\t' ∨ c = '\n' ∨ c = '\r' then skipWs cs else c :: cs
  | [] => []

/-- Parse the remainder of a JSON string literal (the opening quote has been
consumed).  Supports the escapes the program can encounter; `\\u` escapes are
not modelled (treated as a parse failure); a raw control character inside a
literal is a parse failure, as in `json.loads`'s strict mode. -/
def parseStringLit : List Char → Option (String × List Char)
  | [] => none
  | '"' :: rest => some ("", rest)
  | '\\' :: c :: rest =>
    match (match c with
      | '"' => some "\""
      | '\\' => some "\\"
      | '/' => some "/"
      | 'n' => some "\n"
      | 't' => some "\t"
      | 'r' => some "\r"
      | 'b' => some "\x08"
      | 'f' => some "\x0c"
      | _ => none) with
    | none => none
    | some esc =>
      match parseStringLit rest with
      | none => none
      | some (s, rest') => some (esc ++ s, rest')
  | c :: rest =>
    if c.toNat < 32 then none
    else
      match parseStringLit rest with
      | none => none
      | some (s, rest') => some (String.mk [c] ++ s, rest')

/-- Consume a maximal run of decimal digits, accumulating their value. -/
def digitsAux : List Char → Nat → Nat × List Char
  | c :: rest, acc =>
    if c.isDigit then digitsAux rest (acc * 10 + (c.toNat - 48)) else (acc, c :: rest)
  | [], acc => (acc, [])

/-- Parse an unsigned integer following the JSON grammar: a leading `0` is
the whole integer part (so `007` does not parse as one number, exactly as
`json.loads` rejects it), otherwise a maximal digit run. -/
def parseNat (cs : List Char) : Option (Nat × List Char) :=
  match cs with
  | '0' :: rest => some (0, rest)
  | c :: _ => if c.isDigit then some (digitsAux cs 0) else none
  | [] => none

mutual

/-- Fuel-indexed recursive-descent JSON value parser (`json.loads` core). -/
def parseVal : Nat → List Char → Option (Json × List Char)
  | 0, _ => none
  | fuel + 1, cs =>
    match skipWs cs with
    | '\x7b' :: rest =>
      (match skipWs rest with
       | '\x7d' :: rest' => some (Json.obj [], rest')
       | other => parseMembers fuel other [])
    | '[' :: rest =>
      (match skipWs rest with
       | ']' :: rest' => some (Json.arr [], rest')
       | other => parseItems fuel other [])
    | '"' :: rest =>
      (match parseStringLit rest with
       | none => none
       | some (s, rest') => some (Json.str s, rest'))
    | 't' :: 'r' :: 'u' :: 'e' :: rest => some (Json.bool true, rest)
    | 'f' :: 'a' :: 'l' :: 's' :: 'e' :: rest => some (Json.bool false, rest)
    | 'n' :: 'u' :: 'l' :: 'l' :: rest => some (Json.null, rest)
    | '-' :: rest =>
      (match parseNat rest with
       | none => none
       | some (n, rest') => some (Json.num (-(n : Int)), rest'))
    | cs' =>
      (match parseNat cs' with
       | none => none
       | some (n, rest') => some (Json.num (n : Int), rest'))

/-- Parse the members of a JSON object after at least one member is known to
follow; duplicate keys follow Python semantics (`insertKV`: last wins). -/
def parseMembers : Nat → List Char → List (String × Json) → Option (Json × List Char)
  | 0, _, _ => none
  | fuel + 1, cs, acc =>
    match skipWs cs with
    | '"' :: rest =>
      (match parseStringLit rest with
       | none => none
       | some (k, rest') =>
         match skipWs rest' with
         | ':' :: rest'' =>
           (match parseVal fuel rest'' with
            | none => none
            | some (v, rest''') =>
              match skipWs rest''' with
              | ',' :: more => parseMembers fuel more (insertKV acc k v)
              | '\x7d' :: more => some (Json.obj (insertKV acc k v), more)
              | _ => none)
         | _ => none)
    | _ => none

/-- Parse the items of a JSON array after at least one item is known to
follow. -/
def parseItems : Nat → List Char → List Json → Option (Json × List Char)
  | 0, _, _ => none
  | fuel + 1, cs, acc =>
    match parseVal fuel cs with
    | none => none
    | some (v, rest) =>
      match skipWs rest with
      | ',' :: more => parseItems fuel more (acc ++ [v])
      | ']' :: more => some (Json.arr (acc ++ [v]), more)
      | _ => none

end

/-- `json.loads`: parse a complete JSON document; trailing garbage is a
failure (in Python a raised `json.JSONDecodeError`, hence `Option`). -/
def Json.parse (s : String) : Option Json :=
  match parseVal (2 * s.data.length + 8) s.data with
  | some (j, rest) => if (skipWs rest).isEmpty then some j else none
  | none => none

/-- Escape a character the way `json.dumps` does for the characters this
program can produce (its payloads are plain ASCII). -/
def escapeChar (c : Char) : String :=
  if c = '"' then "\\\""
  else if c = '\\' then "\\\\"
  else if c = '\n' then "\\n"
  else if c = '\t' then "\\t"
  else if c = '\r' then "\\r"
  else String.mk [c]

/-- Escape a string for JSON output. -/
def escapeJson (s : String) : String :=
  String.join (s.data.map escapeChar)

mutual

/-- `json.dumps` with its default separators. -/
def Json.dumps : Json → String
  | Json.null => "null"
  | Json.bool true => "true"
  | Json.bool false => "false"
  | Json.num n => toString n
  | Json.str s => "\"" ++ escapeJson s ++ "\""
  | Json.arr xs => "[" ++ dumpsItems xs ++ "]"
  | Json.obj kvs => "\x7b" ++ dumpsMembers kvs ++ "\x7d"

/-- Comma-separated array items for `json.dumps`. -/
def dumpsItems : List Json → String
  | [] => ""
  | [x] => Json.dumps x
  | x :: y :: rest => Json.dumps x ++ ", " ++ dumpsItems (y :: rest)

/-- Comma-separated object members for `json.dumps`. -/
def dumpsMembers : List (String × Json) → String
  | [] => ""
  | [(k, v)] => "\"" ++ escapeJson k ++ "\": " ++ Json.dumps v
  | (k, v) :: m :: rest =>
    "\"" ++ escapeJson k ++ "\": " ++ Json.dumps v ++ ", " ++ dumpsMembers (m :: rest)

end

mutual

/-- Python `str()` of a JSON-derived value, as applied by f-string
interpolation. -/
def pyFormat : Json → String
  | Json.null => "None"
  | Json.bool true => "True"
  | Json.bool false => "False"
  | Json.num n => toString n
  | Json.str s => s
  | Json.arr xs => "[" ++ pyReprList xs ++ "]"
  | Json.obj kvs => "\x7b" ++ pyReprFields kvs ++ "\x7d"

/-- Python `repr()` of a JSON-derived value (used for container elements). -/
def pyRepr : Json → String
  | Json.null => "None"
  | Json.bool true => "True"
  | Json.bool false => "False"
  | Json.num n => toString n
  | Json.str s => "\x27" ++ s ++ "\x27"
  | Json.arr xs => "[" ++ pyReprList xs ++ "]"
  | Json.obj kvs => "\x7b" ++ pyReprFields kvs ++ "\x7d"

/-- Comma-separated reprs of list elements. -/
def pyReprList : List Json → String
  | [] => ""
  | [x] => pyRepr x
  | x :: y :: rest => pyRepr x ++ ", " ++ pyReprList (y :: rest)

/-- Comma-separated reprs of dict entries. -/
def pyReprFields : List (String × Json) → String
  | [] => ""
  | [(k, v)] => "\x27" ++ k ++ "\x27: " ++ pyRepr v
  | (k, v) :: m :: rest => "\x27" ++ k ++ "\x27: " ++ pyRepr v ++ ", " ++ pyReprFields (m :: rest)

end

/-- Python truthiness of a JSON-derived value. -/
def Json.truthy : Json → Bool
  | Json.null => false
  | Json.bool b => b
  | Json.num n => decide (n ≠ 0)
  | Json.str s => decide (s ≠ "")
  | Json.arr xs => !xs.isEmpty
  | Json.obj kvs => !kvs.isEmpty

/-- Python equality of a string against a JSON-derived value (a `str` equals
only an equal `str`). -/
def jsonEqStr (k : String) : Json → Bool
  | Json.str s => decide (k = s)
  | _ => false

/-- Substring test: does the needle occur contiguously in the haystack? -/
def strContainsAux (needle : List Char) : List Char → Bool
  | [] => needle.isEmpty
  | c :: cs => needle.isPrefixOf (c :: cs) || strContainsAux needle cs

/-- Python membership test `k in d` for a string `k`: key membership for
dicts, element equality for lists, substring test for strings, and a raised
`TypeError` otherwise. -/
def pyContains (d : Json) (k : String) : Except String Bool :=
  match d with
  | Json.obj kvs => Except.ok (kwLookup kvs k).isSome
  | Json.arr xs => Except.ok (xs.any (jsonEqStr k))
  | Json.str s => Except.ok (strContainsAux k.data s.data)
  | _ => Except.error "TypeError: argument is not iterable"

/-- Python item assignment `d[k] = v`: only dicts support assignment with a
string key; other values raise `TypeError`. -/
def pySetItem (d : Json) (k : String) (v : Json) : Except String Json :=
  match d with
  | Json.obj kvs => Except.ok (Json.obj (insertKV kvs k v))
  | _ => Except.error "TypeError: object does not support item assignment"

/-- Python `d.get(k, dflt)`: only dicts have `get`; other values raise
`AttributeError`. -/
def pyDictGet (d : Json) (k : String) (dflt : Json) : Except String Json :=
  match d with
  | Json.obj kvs => Except.ok ((kwLookup kvs k).getD dflt)
  | _ => Except.error "AttributeError: object has no attribute get"

/-- Characters removed by Python's `str.strip()`. -/
def isPyWs (c : Char) : Bool :=
  c = ' ' ∨ c = '\t' ∨ c = '\n' ∨ c = '\r' ∨ c = '\x0b' ∨ c = '\x0c'

/-- Python `str.strip()`. -/
def pyStrip (s : String) : String :=
  String.mk (((s.data.dropWhile isPyWs).reverse.dropWhile isPyWs).reverse)

/-- Python slicing `s[:n]` (by code points). -/
def pySlice (s : String) (n : Nat) : String :=
  String.mk (s.data.take n)

/-- The environment variables the program reads (`os.getenv`): a missing
variable is `none`. -/
structure Env where
  pushoverToken : Option String
  pushoverUser : Option String
  anthropicApiKey : Option String

/-- Python falsiness of an `os.getenv` result (`not x` for `None` or `""`). -/
def isFalsyStr : Option String → Bool
  | none => true
  | some s => s.isEmpty

/-- `push(text)`: best-effort Pushover delivery.  The observable effect is
the list of messages handed to the notification endpoint; missing
credentials mean an early return, and transport errors are swallowed, so
the function never raises into the caller. -/
def push (env : Env) (text : String) : List String :=
  if isFalsyStr env.pushoverToken || isFalsyStr env.pushoverUser then []
  else [text]

/-- `record_user_details`: formats a contact summary, notifies, and returns
`{"recorded": "ok"}`.  Argument values arrive as JSON-decoded Python values
and are interpolated with `str()`. -/
def record_user_details (env : Env) (email name notes : Json) : Json × List String :=
  (Json.obj [("recorded", Json.str "ok")],
   push env ("New contact: " ++ pyFormat name ++ "\nEmail: " ++ pyFormat email ++
             "\nNotes: " ++ pyFormat notes))

/-- `record_unknown_question`: notifies with the literal question and returns
`{"recorded": "ok"}`. -/
def record_unknown_question (env : Env) (question : Json) : Json × List String :=
  (Json.obj [("recorded", Json.str "ok")],
   push env ("Unanswered question: " ++ pyFormat question))

/-- The values reachable through `globals().get(tool_name)` in
`Me.handle_tool_call`.  Besides the two declared tools and `push`, every
other module-level binding is representable: `nonToolGlobal` stands for a
truthy non-function binding (imported modules, the schema dicts, the
`tools` list, the class `Me`, the instance `me`, truthy dunders such as
`__name__`) — calling one is not a JSON-serializable tool invocation and
is modelled as a raised exception — and `falsyGlobal` stands for a binding
whose value is falsy (`None` or the empty string: `__spec__`, `__cached__`
and `__package__` of a script-run module). -/
inductive PyCallable where
  | pushFn : PyCallable
  | recordUserDetailsFn : PyCallable
  | recordUnknownQuestionFn : PyCallable
  | nonToolGlobal (name : String) : PyCallable
  | falsyGlobal (name : String) : PyCallable
deriving DecidableEq

/-- Python truthiness of a module-level binding's value, as tested by
`... if tool else {}` (app.py:243). -/
def PyCallable.pyTruthy : PyCallable → Bool
  | PyCallable.falsyGlobal _ => false
  | _ => true

/-- The module-level bindings of `src/app.py` as populated when it runs as
a script: the dunders of a `__main__` module (with `__spec__`, `__cached__`
and `__package__` bound but falsy, and `__name__`, `__doc__`, `__file__`,
`__loader__`, `__builtins__` truthy), the imports, the module's own
definitions, and `me`, which the `__main__` block has bound before any chat
turn can dispatch. -/
def moduleGlobals : List (String × PyCallable) :=
  [("__name__", PyCallable.nonToolGlobal "__name__"),
   ("__doc__", PyCallable.nonToolGlobal "__doc__"),
   ("__package__", PyCallable.falsyGlobal "__package__"),
   ("__loader__", PyCallable.nonToolGlobal "__loader__"),
   ("__spec__", PyCallable.falsyGlobal "__spec__"),
   ("__file__", PyCallable.nonToolGlobal "__file__"),
   ("__cached__", PyCallable.falsyGlobal "__cached__"),
   ("__builtins__", PyCallable.nonToolGlobal "__builtins__"),
   ("load_dotenv", PyCallable.nonToolGlobal "load_dotenv"),
   ("OpenAI", PyCallable.nonToolGlobal "OpenAI"),
   ("json", PyCallable.nonToolGlobal "json"),
   ("os", PyCallable.nonToolGlobal "os"),
   ("requests", PyCallable.nonToolGlobal "requests"),
   ("PdfReader", PyCallable.nonToolGlobal "PdfReader"),
   ("gr", PyCallable.nonToolGlobal "gr"),
   ("push", PyCallable.pushFn),
   ("record_user_details", PyCallable.recordUserDetailsFn),
   ("record_unknown_question", PyCallable.recordUnknownQuestionFn),
   ("record_user_details_json", PyCallable.nonToolGlobal "record_user_details_json"),
   ("record_unknown_question_json", PyCallable.nonToolGlobal "record_unknown_question_json"),
   ("tools", PyCallable.nonToolGlobal "tools"),
   ("Me", PyCallable.nonToolGlobal "Me"),
   ("me", PyCallable.nonToolGlobal "me")]

/-- `globals().get(name)`: dictionary lookup over the module's entire
global namespace, not over a registry of the two declared tools. -/
def globalsGet (name : String) : Option PyCallable :=
  (moduleGlobals.find? (fun p => p.1 = name)).map (fun p => p.2)

/-- The keys of a decoded keyword-argument dict. -/
def kwKeys (kvs : List (String × Json)) : List String := kvs.map (fun p => p.1)

/-- `tool(**arguments)`: bind the decoded JSON value as keyword arguments and
invoke the resolved global.  A non-dict unpacks with `TypeError`; missing
required or unexpected keyword arguments raise `TypeError`; calling a
module-level object that is not one of the three functions raises before a
tool message can be produced (modules, dicts and lists are not callable, and
class instances are not JSON serializable). -/
def callGlobal (env : Env) (g : PyCallable) (args : Json) : Except String (Json × List String) :=
  match args with
  | Json.obj kvs =>
    match g with
    | PyCallable.pushFn =>
      if !(kwKeys kvs).all (fun k => k = "text") then
        Except.error "TypeError: push got an unexpected keyword argument"
      else
        match kwLookup kvs "text" with
        | none => Except.error "TypeError: push missing required argument text"
        | some v => Except.ok (Json.null, push env (pyFormat v))
    | PyCallable.recordUserDetailsFn =>
      if !(kwKeys kvs).all (fun k => k = "email" ∨ k = "name" ∨ k = "notes") then
        Except.error "TypeError: record_user_details got an unexpected keyword argument"
      else
        match kwLookup kvs "email" with
        | none => Except.error "TypeError: record_user_details missing required argument email"
        | some email =>
          Except.ok (record_user_details env email
            ((kwLookup kvs "name").getD (Json.str "Name not provided"))
            ((kwLookup kvs "notes").getD (Json.str "not provided")))
    | PyCallable.recordUnknownQuestionFn =>
      if !(kwKeys kvs).all (fun k => k = "question") then
        Except.error "TypeError: record_unknown_question got an unexpected keyword argument"
      else
        match kwLookup kvs "question" with
        | none => Except.error "TypeError: record_unknown_question missing required argument question"
        | some q => Except.ok (record_unknown_question env q)
    | PyCallable.nonToolGlobal n =>
      Except.error ("TypeError: module-level object is not usable as a tool: " ++ n)
    | PyCallable.falsyGlobal n =>
      Except.error ("TypeError: NoneType object is not callable: " ++ n)
  | _ => Except.error "TypeError: argument after double-star must be a mapping"

/-- `tool_call.function` of the OpenAI tool-call object. -/
structure ToolFunction where
  name : String
  arguments : String
deriving DecidableEq

/-- A tool call issued by the generator model. -/
structure ToolCall where
  id : String
  function : ToolFunction
deriving DecidableEq

/-- A message of the conversation buffer.  `dict` messages are the plain
Python dict literals the program builds (system, user, history and tool
messages); `apiObj` is the OpenAI SDK assistant message object appended by
`messages.append(tool_msg)`, which carries the issued tool calls and does
not support item access. -/
inductive Message where
  | dict (role : String) (content : String) (tool_call_id : Option String) : Message
  | apiObj (content : String) (tool_calls : List ToolCall) : Message
deriving DecidableEq

/-- Attribute access `m.role` (the SDK assistant object's role is
`"assistant"`). -/
def Message.roleOf : Message → String
  | Message.dict r _ _ => r
  | Message.apiObj _ _ => "assistant"

/-- The `tool_call_id` entry of a tool dict message, if any. -/
def Message.tcid : Message → Option String
  | Message.dict _ _ i => i
  | Message.apiObj _ _ => none

/-- The ids of the tool calls carried by an SDK assistant message. -/
def Message.toolIds : Message → List String
  | Message.dict _ _ _ => []
  | Message.apiObj _ calls => calls.map (fun tc => tc.id)

/-- Is the message a plain dict (supports `m["role"]` and
`json.dumps`)? -/
def Message.isDictMsg : Message → Bool
  | Message.dict _ _ _ => true
  | Message.apiObj _ _ => false

/-- `result = tool(**arguments) if tool else {}` (app.py:243): the source
tests the resolved object's truthiness — an absent name (`globals().get`
returns `None`) and a present-but-falsy binding both take the empty-dict
fallback; only a truthy binding is invoked with the decoded keyword
arguments. -/
def dispatchTool (env : Env) (tool : Option PyCallable) (args : Json) :
    Except String (Json × List String) :=
  match tool with
  | some g => if g.pyTruthy then callGlobal env g args else Except.ok (Json.obj [], [])
  | none => Except.ok (Json.obj [], [])

/-- Is the `{}` fallback branch of app.py:243 taken for `name`: the name is
absent from the module globals, or its binding is falsy. -/
def fallbackTaken (name : String) : Bool :=
  match globalsGet name with
  | none => true
  | some g => !g.pyTruthy

/-- `Me.handle_tool_call` (src/app.py lines 236-245): decode each call's
arguments with `json.loads` (a decode failure raises and aborts the whole
turn), resolve the name over `globals()`, call the resolved binding with
the decoded keyword arguments if it is truthy, or fall back to an empty
dict; each produced result becomes one tool-role dict message carrying the
call's id.  Returns the tool messages and the notifications pushed. -/
def handle_tool_call (env : Env) : List ToolCall → Except String (List Message × List String)
  | [] => Except.ok ([], [])
  | tc :: rest =>
    match Json.parse tc.function.arguments with
    | none => Except.error "JSONDecodeError: invalid tool arguments"
    | some args =>
      match dispatchTool env (globalsGet tc.function.name) args with
      | Except.error e => Except.error e
      | Except.ok (res, pushes) =>
        match handle_tool_call env rest with
        | Except.error e => Except.error e
        | Except.ok (msgs, ps) =>
          Except.ok (Message.dict "tool" (Json.dumps res) (some tc.id) :: msgs, pushes ++ ps)

/-- One response of the generator model
(`self.openai.chat.completions.create`): the loop in `Me.chat` inspects
`finish_reason` and either executes the carried tool calls or takes
`content` as the final reply. -/
structure ModelResponse where
  finish_reason : String
  content : String
  tool_calls : List ToolCall
deriving DecidableEq

/-- Outcome of the generation loop: the final reply, the messages appended
to the conversation buffer during tool rounds (in order), the notifications
pushed, and the number of model calls made. -/
structure GenOut where
  reply : String
  newMessages : List Message
  pushes : List String
  rounds : Nat
deriving DecidableEq

/-- The tool-call generation loop of `Me.chat` (lines 375-388 and 404-415):
keep calling the model; on `finish_reason == "tool_calls"` dispatch the
calls, append the SDK assistant message and the tool result messages, and
continue; on any other finish reason stop and take the content as reply.
The generator oracle is the list of successive model responses; exhausting
it means the turn never finishes (`none`).  There is no iteration bound. -/
def genLoop (env : Env) : List ModelResponse → Except String (Option GenOut)
  | [] => Except.ok none
  | r :: rest =>
    if r.finish_reason = "tool_calls" then
      match handle_tool_call env r.tool_calls with
      | Except.error e => Except.error e
      | Except.ok (results, pushes) =>
        match genLoop env rest with
        | Except.error e => Except.error e
        | Except.ok none => Except.ok none
        | Except.ok (some out) =>
          Except.ok (some
            { reply := out.reply
              newMessages := Message.apiObj r.content r.tool_calls :: results ++ out.newMessages
              pushes := pushes ++ out.pushes
              rounds := out.rounds + 1 })
    else
      Except.ok (some { reply := r.content, newMessages := [], pushes := [], rounds := 1 })

/-- The roles kept by the evaluator-history comprehension of `Me.chat`
(lines 391 and 416). -/
def evalRoles : List String := ["system", "user", "assistant", "tool"]

/-- `[m for m in messages if m["role"] in ("system", "user", "assistant",
"tool")]`: the comprehension subscripts every message; the SDK assistant
object appended during a tool round does not support item access, so the
comprehension raises `TypeError` there. -/
def evalHistorySelect : List Message → Except String (List Message)
  | [] => Except.ok []
  | m :: ms =>
    match m with
    | Message.dict r _ _ =>
      (match evalHistorySelect ms with
       | Except.error e => Except.error e
       | Except.ok t => Except.ok (if r ∈ evalRoles then m :: t else t))
    | Message.apiObj _ _ =>
      Except.error "TypeError: ChatCompletionMessage object is not subscriptable"

/-- JSON serialization of one message for `json.dumps(history_messages)`:
dict messages serialize by their entries; the SDK assistant object is not
JSON serializable and raises `TypeError`. -/
def msgToJson : Message → Except String Json
  | Message.dict r c i =>
    Except.ok (Json.obj ([("role", Json.str r), ("content", Json.str c)] ++
      (match i with
       | some tid => [("tool_call_id", Json.str tid)]
       | none => [])))
  | Message.apiObj _ _ =>
    Except.error "TypeError: Object of type ChatCompletionMessage is not JSON serializable"

/-- Serialize a message list element-wise, propagating the first failure. -/
def msgsToJson : List Message → Except String (List Json)
  | [] => Except.ok []
  | m :: rest =>
    match msgToJson m with
    | Except.error e => Except.error e
    | Except.ok j =>
      match msgsToJson rest with
      | Except.error e => Except.error e
      | Except.ok js => Except.ok (j :: js)

/-- `json.dumps(history_messages, ensure_ascii=False)` as evaluated on line
305 of `src/app.py`, before the `try` block. -/
def serializeMessages (msgs : List Message) : Except String String :=
  match msgsToJson msgs with
  | Except.error e => Except.error e
  | Except.ok js => Except.ok (Json.dumps (Json.arr js))

/-- Join the text of the content parts of the Anthropic response body:
`"".join([p.get("text", "") for p in parts if isinstance(p, dict)])` where
`parts = out.get("content", [])`.  A non-dict body has no `get`
(`AttributeError`); a non-iterable content raises `TypeError`; a string or
dict content iterates over characters/keys, none of which is a dict. -/
def joinTexts : List Json → Except String String
  | [] => Except.ok ""
  | Json.obj kvs :: rest =>
    (match (kwLookup kvs "text").getD (Json.str "") with
     | Json.str s =>
       (match joinTexts rest with
        | Except.error e => Except.error e
        | Except.ok t => Except.ok (s ++ t))
     | _ => Except.error "TypeError: sequence item expected str instance")
  | _ :: rest => joinTexts rest

/-- Extract the evaluator model's text from the parsed response body. -/
def extractText (body : Json) : Except String String :=
  match body with
  | Json.obj kvs =>
    (match (kwLookup kvs "content").getD (Json.arr []) with
     | Json.arr parts => joinTexts parts
     | Json.str _ => Except.ok ""
     | Json.obj _ => Except.ok ""
     | _ => Except.error "TypeError: object is not iterable")
  | _ => Except.error "AttributeError: object has no attribute get"

/-- The accepting fallback dict `{"is_acceptable": True, "feedback": f}`. -/
def acceptWith (f : String) : Json :=
  Json.obj [("is_acceptable", Json.bool true), ("feedback", Json.str f)]

/-- The `try` block of `Me._evaluate_with_anthropic` (src/app.py lines
324-342).  The transport oracle stands for the
`requests.post`/`raise_for_status`/`r.json()` round-trip: `Except.error e`
is any exception raised by it with message `e`, `Except.ok body` the parsed
response body.  Every exception raised inside the block (including the
membership tests and item assignments on a non-dict parse result) is caught
by the `except` clause and converted into the accepting fallback, so the
block always yields a value. -/
def evalTryBody (transport : Except String Json) : Json :=
  match transport with
  | Except.error e => acceptWith e
  | Except.ok body =>
    match extractText body with
    | Except.error e => acceptWith e
    | Except.ok text =>
      let data :=
        match Json.parse text with
        | some j => j
        | none =>
          Json.obj [("is_acceptable", Json.bool true),
                    ("feedback", Json.str (pySlice (pyStrip text) 400))]
      match pyContains data "is_acceptable" with
      | Except.error e => acceptWith e
      | Except.ok hasAcc =>
        match (if hasAcc then Except.ok data else pySetItem data "is_acceptable" (Json.bool true)) with
        | Except.error e => acceptWith e
        | Except.ok data1 =>
          match pyContains data1 "feedback" with
          | Except.error e => acceptWith e
          | Except.ok hasFb =>
            match (if hasFb then Except.ok data1 else pySetItem data1 "feedback" (Json.str "")) with
            | Except.error e => acceptWith e
            | Except.ok data2 => data2

/-- `Me._evaluate_with_anthropic` (src/app.py lines 273-342).  The
credential check and the serialization of the history (line 305) happen
before the `try` block, so a non-serializable history raises out of the
method; the `try` block itself (`evalTryBody`) always yields a value.  The
`reply` and `message` arguments only feed the outgoing prompt and cannot
influence the returned value. -/
def evaluateWithAnthropic (env : Env) (transport : Except String Json)
    (reply message : String) (history_messages : List Message) : Except String Json :=
  if isFalsyStr env.anthropicApiKey then
    Except.ok (acceptWith "Evaluator unavailable")
  else
    match serializeMessages history_messages with
    | Except.error e => Except.error e
    | Except.ok _convo => Except.ok (evalTryBody transport)

/-- Truthiness of `evaluation.get("is_acceptable", True)` as tested by the
retry loop's condition; a non-dict evaluation value has no `get` and raises
`AttributeError`. -/
def acceptableFlag (ev : Json) : Except String Bool :=
  match pyDictGet ev "is_acceptable" (Json.bool true) with
  | Except.error e => Except.error e
  | Except.ok v => Except.ok v.truthy

/-- The persona data of the `Me` instance: name and the three loaded
documents (document ingestion itself is an external collaborator). -/
structure Me where
  name : String
  linkedin : String
  resume : String
  summary : String

/-- `Me.system_prompt` (src/app.py lines 247-271), transcribed literally. -/
def systemPrompt (me : Me) : String :=
  "You are acting as " ++ me.name ++ ". You are answering questions on " ++ me.name ++
  "\x27s website, " ++
  "particularly questions related to " ++ me.name ++
  "\x27s career, background, skills and experience. " ++
  "Your responsibility is to represent " ++ me.name ++
  " for interactions on the website as faithfully as possible. " ++
  "You are given a summary, a LinkedIn profile, and a resume which you can use to answer questions. " ++
  "Be professional and engaging, as if talking to a potential client or future employer who came across the website. " ++
  "If you don't know the answer to any question, use your record_unknown_question tool to record the question that you couldn't answer. " ++
  "If the user is engaging in discussion, try to steer them towards getting in touch via email; ask for their email and record it using your record_user_details tool. " ++
  "\n\n## Summary:\n" ++ me.summary ++ "\n\n## LinkedIn Profile:\n" ++ me.linkedin ++
  "\n\n## Resume:\n" ++ me.resume ++ "\n\n" ++
  "With this context, please chat with the user, always staying in character as " ++
  me.name ++ "."

/-- The augmented system context built for a retry (src/app.py lines
397-402): the original system prompt plus the rejection block quoting the
previous reply and the evaluator's feedback verbatim. -/
def improvedSystem (base reply feedback : String) : String :=
  base ++
  "\n\n## Previous answer rejected\n" ++
  "Your previous answer was:\n" ++ reply ++ "\n\n" ++
  "Reason for rejection (from evaluator):\n" ++ feedback ++ "\n\n" ++
  "Revise your answer to address the feedback while staying faithful to the provided documents."

/-- `[{"role": "system", ...}] + history + [{"role": "user", ...}]`
(src/app.py lines 372 and 403). -/
def mkInitialMessages (sys : String) (history : List Message) (message : String) : List Message :=
  Message.dict "system" sys none :: (history ++ [Message.dict "user" message none])

/-- Trace record of one generation-plus-evaluation attempt of `Me.chat`. -/
structure AttemptRec where
  systemContent : String
  sentMessages : List Message
  newMessages : List Message
  reply : String
  rounds : Nat
  pushes : List String
  evalHistory : List Message
  evaluation : Json

/-- Trace of one completed `Me.chat` call: the attempt records in order,
the final value of the `attempts` counter, and the returned reply. -/
structure ChatTrace where
  records : List AttemptRec
  attempts : Nat
  reply : String

/-- One generation-plus-evaluation attempt of `Me.chat`: build the message
sequence from the given system context, run the generation loop, build the
evaluator history by filtering the full buffer (fallible: tool rounds leave
a non-subscriptable SDK object in the buffer), and evaluate. -/
def runAttempt (env : Env) (oracle : List ModelResponse) (transport : Except String Json)
    (sys message : String) (history : List Message) : Except String (Option AttemptRec) :=
  let sent := mkInitialMessages sys history message
  match genLoop env oracle with
  | Except.error e => Except.error e
  | Except.ok none => Except.ok none
  | Except.ok (some out) =>
    match evalHistorySelect (sent ++ out.newMessages) with
    | Except.error e => Except.error e
    | Except.ok eh =>
      match evaluateWithAnthropic env transport out.reply message eh with
      | Except.error e => Except.error e
      | Except.ok ev =>
        Except.ok (some
          { systemContent := sys
            sentMessages := sent
            newMessages := out.newMessages
            reply := out.reply
            rounds := out.rounds
            pushes := out.pushes
            evalHistory := eh
            evaluation := ev })

/-- The retry loop of `Me.chat` (lines 393-417):
`while not evaluation.get("is_acceptable", True) and attempts < 2`.  Each
iteration increments `attempts`, rebuilds the message sequence from the
augmented system context plus the original history and user turn, reruns
the generation loop and re-evaluates.  `gens`/`evals` index the oracles by
attempt number.  The loop's exit condition is exactly the source's guard;
the extra `fuel` argument only makes the recursion structural and is
semantically inert for any budget above `2 - attempts`
(`retryLoop_fuel_irrelevant` below); `chat` enters with budget 3, which
covers the initial check plus the at most two iterations the guard
permits. -/
def retryLoop (env : Env) (gens : Nat → List ModelResponse) (evals : Nat → Except String Json)
    (message : String) (history : List Message) (base : String) :
    Nat → AttemptRec → List AttemptRec → Nat → Except String (Option ChatTrace)
  | 0, _, _, _ => Except.ok none
  | fuel + 1, prev, recs, attempts =>
    match acceptableFlag prev.evaluation with
    | Except.error e => Except.error e
    | Except.ok acc =>
      if acc = false ∧ attempts < 2 then
        match pyDictGet prev.evaluation "feedback" (Json.str "") with
        | Except.error e => Except.error e
        | Except.ok fb =>
          let improved := improvedSystem base prev.reply (pyFormat fb)
          match runAttempt env (gens (attempts + 1)) (evals (attempts + 1)) improved message history with
          | Except.error e => Except.error e
          | Except.ok none => Except.ok none
          | Except.ok (some rec) =>
            retryLoop env gens evals message history base fuel rec (recs ++ [rec]) (attempts + 1)
      else
        Except.ok (some { records := recs, attempts := attempts, reply := prev.reply })

/-- `Me.chat` (src/app.py lines 344-419): first attempt with the persona
system prompt, then the evaluation-driven retry loop.  Returns the trace of
a completed call, `none` when a generator oracle is exhausted before a
final response, or the raised exception. -/
def chat (env : Env) (me : Me) (gens : Nat → List ModelResponse)
    (evals : Nat → Except String Json) (message : String) (history : List Message) :
    Except String (Option ChatTrace) :=
  let base := systemPrompt me
  match runAttempt env (gens 0) (evals 0) base message history with
  | Except.error e => Except.error e
  | Except.ok none => Except.ok none
  | Except.ok (some rec0) =>
    retryLoop env gens evals message history base 3 rec0 [rec0] 0

/-- The recursion budget of `retryLoop` does not influence its result as
long as it exceeds `2 - attempts`: the loop's behaviour is governed solely
by the source's guard `not acceptable and attempts < 2`. -/
theorem retryLoop_fuel_irrelevant (env : Env) (gens : Nat → List ModelResponse)
    (evals : Nat → Except String Json) (message : String) (history : List Message)
    (base : String) :
    ∀ f g attempts prev recs, 2 - attempts < f → 2 - attempts < g →
      retryLoop env gens evals message history base f prev recs attempts =
      retryLoop env gens evals message history base g prev recs attempts := by
  intro f
  induction f with
  | zero => intro g attempts prev recs hf hg; omega
  | succ f ih =>
    intro g attempts prev recs hf hg
    match g, hg with
    | g + 1, _ =>
      simp only [retryLoop]
      cases acceptableFlag prev.evaluation with
      | error e => rfl
      | ok acc =>
        simp only []
        by_cases hcond : acc = false ∧ attempts < 2
        · simp only [if_pos hcond]
          cases pyDictGet prev.evaluation "feedback" (Json.str "") with
          | error e => rfl
          | ok fb =>
            simp only []
            cases runAttempt env (gens (attempts + 1)) (evals (attempts + 1))
                (improvedSystem base prev.reply (pyFormat fb)) message history with
            | error e => rfl
            | ok o =>
              cases o with
              | none => rfl
              | some rec =>
                simp only []
                exact ih g (attempts + 1) rec (recs ++ [rec])
                  (by omega) (by omega)
        · simp only [if_neg hcond]

/-- The serialization of one dict message (helper used to express that a
dict-only buffer serializes successfully). -/
def dictMsgToJson : Message → Json
  | Message.dict r c i =>
    Json.obj ([("role", Json.str r), ("content", Json.str c)] ++
      (match i with
       | some tid => [("tool_call_id", Json.str tid)]
       | none => []))
  | Message.apiObj _ _ => Json.null

/-- The value the evaluator produces for a given environment and transport
(helper for stating hypotheses about the evaluation oracle). -/
def evalResult (env : Env) (t : Except String Json) : Json :=
  if isFalsyStr env.anthropicApiKey then acceptWith "Evaluator unavailable"
  else evalTryBody t

/-- The relation linking one attempt record to the next in a chat trace:
the later attempt's system context is the original system prompt augmented
with the rejection block quoting the earlier attempt's reply and feedback,
and its message sequence is rebuilt from that context, the original history
and the original user turn. -/
def RetryStep (base : String) (history : List Message) (message : String)
    (a b : AttemptRec) : Prop :=
  ∃ fb, pyDictGet a.evaluation "feedback" (Json.str "") = Except.ok fb ∧
    b.systemContent = improvedSystem base a.reply (pyFormat fb) ∧
    b.sentMessages = mkInitialMessages b.systemContent history message

/-- Does some assistant message among `prior` carry the tool call `cid`? -/
def answeredIn (prior : List Message) (cid : String) : Bool :=
  prior.any (fun m => m.roleOf = "assistant" && m.toolIds.any (fun x => x = cid))

/-- Check that every tool message in the list answers a tool call issued by
an assistant message appearing earlier (in `prior` or in the prefix already
walked). -/
def toolAnsweredAux : List Message → List Message → Bool
  | _, [] => true
  | prior, m :: rest =>
    (if m.roleOf = "tool" then
       match m.tcid with
       | some cid => answeredIn prior cid
       | none => false
     else true) && toolAnsweredAux (prior ++ [m]) rest

/-! ### Supporting lemmas -/

/-- Assigning a fresh key appends the binding at the end of the dict. -/
theorem insertKV_of_lookup_none (kvs : List (String × Json)) (k : String) (v : Json)
    (h : kwLookup kvs k = none) : insertKV kvs k v = kvs ++ [(k, v)] := by
  induction kvs with
  | nil => rfl
  | cons p rest ih =>
    obtain ⟨k', v'⟩ := p
    by_cases hk : k' = k
    · exfalso
      simp [kwLookup, List.find?, hk] at h
    · simp only [kwLookup, List.find?] at h
      simp only [insertKV, if_neg hk, List.cons_append, List.cons.injEq, true_and]
      apply ih
      simp only [kwLookup]
      by_cases hd : (decide (k' = k)) = true
      · simp at hd; exact absurd hd hk
      · simp only [hd] at h
        exact h

/-- A successful `acceptableFlag` means the evaluation value is a dict. -/
theorem acceptableFlag_ok_obj (ev : Json) (b : Bool)
    (h : acceptableFlag ev = Except.ok b) : ∃ kvs, ev = Json.obj kvs := by
  cases ev <;> simp [acceptableFlag, pyDictGet] at h ⊢

/-- A list of dict messages is JSON serializable. -/
theorem msgsToJson_allDict (msgs : List Message)
    (h : ∀ m ∈ msgs, m.isDictMsg = true) :
    msgsToJson msgs = Except.ok (msgs.map dictMsgToJson) := by
  induction msgs with
  | nil => rfl
  | cons m rest ih =>
    have hm := h m (by simp)
    cases m with
    | dict r c i =>
      have hrest := ih (fun x hx => h x (by simp [hx]))
      simp [msgsToJson, msgToJson, hrest, dictMsgToJson]
    | apiObj c tcs => simp [Message.isDictMsg] at hm

/-- The evaluator-history comprehension succeeds on a buffer of dict
messages, and its output again consists of dict messages. -/
theorem evalHistorySelect_allDict (msgs : List Message)
    (h : ∀ m ∈ msgs, m.isDictMsg = true) :
    ∃ eh, evalHistorySelect msgs = Except.ok eh ∧ ∀ m ∈ eh, m.isDictMsg = true := by
  induction msgs with
  | nil => exact ⟨[], rfl, by simp⟩
  | cons m rest ih =>
    have hm := h m (by simp)
    cases m with
    | dict r c i =>
      obtain ⟨eh, heh, hall⟩ := ih (fun x hx => h x (by simp [hx]))
      by_cases hr : r ∈ evalRoles
      · exact ⟨Message.dict r c i :: eh, by simp [evalHistorySelect, heh, hr],
          by intro x hx; cases hx with
             | head => rfl
             | tail _ hx' => exact hall x hx'⟩
      · exact ⟨eh, by simp [evalHistorySelect, heh, hr], hall⟩
    | apiObj c tcs => simp [Message.isDictMsg] at hm

/-- The evaluator's returned value does not depend on the reply, the user
message or a serializable history: those only feed the outgoing request,
which the fixed transport oracle abstracts. -/
theorem evaluateWithAnthropic_args_irrelevant (env : Env) (t : Except String Json)
    (r m : String) (hist : List Message) (js : List Json)
    (h : msgsToJson hist = Except.ok js) :
    evaluateWithAnthropic env t r m hist = evaluateWithAnthropic env t "" "" [] := by
  cases hf : isFalsyStr env.anthropicApiKey with
  | true => simp [evaluateWithAnthropic, hf]
  | false => simp [evaluateWithAnthropic, hf, serializeMessages, h, msgsToJson]

/-- With the credential falsy or the history serializable, the evaluator
returns a value rather than raising. -/
theorem evaluateWithAnthropic_ok (env : Env) (t : Except String Json)
    (r m : String) (hist : List Message) (js : List Json)
    (h : msgsToJson hist = Except.ok js) :
    evaluateWithAnthropic env t r m hist =
      Except.ok (if isFalsyStr env.anthropicApiKey then acceptWith "Evaluator unavailable"
                 else evalTryBody t) := by
  cases hf : isFalsyStr env.anthropicApiKey with
  | true => simp [evaluateWithAnthropic, hf]
  | false => simp [evaluateWithAnthropic, hf, serializeMessages, h]

/-- A successful attempt records the system context it was given and the
message sequence built from it, the original history and the user turn. -/
theorem runAttempt_shape (env : Env) (oracle : List ModelResponse)
    (t : Except String Json) (sys message : String) (history : List Message)
    (rec : AttemptRec)
    (h : runAttempt env oracle t sys message history = Except.ok (some rec)) :
    rec.systemContent = sys ∧ rec.sentMessages = mkInitialMessages sys history message := by
  simp only [runAttempt] at h
  split at h
  · exact absurd h (by simp)
  · exact absurd h (by simp)
  · split at h
    · exact absurd h (by simp)
    · split at h
      · exact absurd h (by simp)
      · rw [Except.ok.injEq, Option.some.injEq] at h
        subst h
        exact ⟨rfl, rfl⟩

/-- A generation attempt without tool rounds over a dict-only history
completes: the buffer stays all-dict, the evaluator history is computable
and the evaluation value is `evalResult`. -/
theorem runAttempt_notool (env : Env) (oracle : List ModelResponse)
    (t : Except String Json) (sys message : String) (history : List Message)
    (out : GenOut)
    (hh : ∀ m ∈ history, m.isDictMsg = true)
    (hg : genLoop env oracle = Except.ok (some out))
    (hn : out.newMessages = []) :
    ∃ eh, runAttempt env oracle t sys message history =
      Except.ok (some
        { systemContent := sys
          sentMessages := mkInitialMessages sys history message
          newMessages := []
          reply := out.reply
          rounds := out.rounds
          pushes := out.pushes
          evalHistory := eh
          evaluation := evalResult env t }) := by
  have hsent : ∀ m ∈ mkInitialMessages sys history message, m.isDictMsg = true := by
    intro m hm
    simp only [mkInitialMessages, List.mem_cons, List.mem_append, List.mem_singleton] at hm
    rcases hm with rfl | hm | rfl | hm
    · rfl
    · exact hh m hm
    · rfl
    · cases hm
  obtain ⟨eh, heh, hehd⟩ := evalHistorySelect_allDict (mkInitialMessages sys history message) hsent
  have hev : evaluateWithAnthropic env t out.reply message eh = Except.ok (evalResult env t) := by
    rw [evaluateWithAnthropic_ok env t out.reply message eh (eh.map dictMsgToJson)
      (msgsToJson_allDict eh hehd)]
    rfl
  refine ⟨eh, ?_⟩
  simp only [runAttempt, hg, hn, List.append_nil, heh, hev]

/-- The retry loop exits (returning the accumulated trace and the previous
reply) as soon as the evaluation is acceptable or the attempts cap is
reached. -/
theorem retryLoop_exit (env : Env) (gens : Nat → List ModelResponse)
    (evals : Nat → Except String Json) (message : String) (history : List Message)
    (base : String) (fuel : Nat) (prev : AttemptRec) (recs : List AttemptRec)
    (attempts : Nat) (acc : Bool)
    (hacc : acceptableFlag prev.evaluation = Except.ok acc)
    (hstop : acc = true ∨ 2 ≤ attempts) :
    retryLoop env gens evals message history base (fuel + 1) prev recs attempts =
      Except.ok (some { records := recs, attempts := attempts, reply := prev.reply }) := by
  have hneg : ¬ (acc = false ∧ attempts < 2) := by
    rcases hstop with h | h
    · simp [h]
    · intro hc
      omega
  simp [retryLoop, hacc, hneg]

/-- One rejected round of the retry loop: increment `attempts`, rebuild the
sequence from the augmented system context and regenerate. -/
theorem retryLoop_step (env : Env) (gens : Nat → List ModelResponse)
    (evals : Nat → Except String Json) (message : String) (history : List Message)
    (base : String) (fuel : Nat) (prev : AttemptRec) (recs : List AttemptRec)
    (attempts : Nat) (fb : Json) (rec' : AttemptRec)
    (hacc : acceptableFlag prev.evaluation = Except.ok false)
    (hlt : attempts < 2)
    (hfb : pyDictGet prev.evaluation "feedback" (Json.str "") = Except.ok fb)
    (hra : runAttempt env (gens (attempts + 1)) (evals (attempts + 1))
        (improvedSystem base prev.reply (pyFormat fb)) message history =
        Except.ok (some rec')) :
    retryLoop env gens evals message history base (fuel + 1) prev recs attempts =
      retryLoop env gens evals message history base fuel rec' (recs ++ [rec']) (attempts + 1) := by
  simp [retryLoop, hacc, hlt, hfb, hra]

/-- Property-level form of `runAttempt_notool`. -/
theorem runAttempt_notool_spec (env : Env) (oracle : List ModelResponse)
    (t : Except String Json) (sys message : String) (history : List Message)
    (out : GenOut)
    (hh : ∀ m ∈ history, m.isDictMsg = true)
    (hg : genLoop env oracle = Except.ok (some out))
    (hn : out.newMessages = []) :
    ∃ rec, runAttempt env oracle t sys message history = Except.ok (some rec) ∧
      rec.reply = out.reply ∧ rec.evaluation = evalResult env t ∧
      rec.systemContent = sys ∧
      rec.sentMessages = mkInitialMessages sys history message ∧
      rec.newMessages = [] := by
  obtain ⟨eh, hra⟩ := runAttempt_notool env oracle t sys message history out hh hg hn
  exact ⟨_, hra, rfl, rfl, rfl, rfl, rfl⟩

/-- The accepting fallback dict is judged acceptable by the retry guard. -/
theorem acceptableFlag_acceptWith (s : String) :
    acceptableFlag (acceptWith s) = Except.ok true := rfl

/-- With a missing credential the evaluator result is the fixed
"Evaluator unavailable" acceptance. -/
theorem evalResult_of_no_key (env : Env) (t : Except String Json)
    (hkey : env.anthropicApiKey = none) :
    evalResult env t = acceptWith "Evaluator unavailable" := by
  simp [evalResult, hkey, isFalsyStr]

/-- C3 (amended): when `ANTHROPIC_API_KEY` is absent,
`_evaluate_with_anthropic` returns exactly
`{"is_acceptable": True, "feedback": "Evaluator unavailable"}` for every
transport behaviour, reply, message and history — in particular without
depending on any model call; and, provided the generation performs no
tool-call round, `chat` returns the first generated reply with exactly zero
retry rounds.  (The proviso is forced: a tool round crashes the turn before
evaluation, see the counterexample.) -/
theorem evaluator_unavailable_accepts_and_zero_retries
    (env : Env) (me : Me) (gens : Nat → List ModelResponse)
    (evals : Nat → Except String Json) (message : String) (history : List Message)
    (out : GenOut)
    (hkey : env.anthropicApiKey = none) :
    (∀ transport r m h, evaluateWithAnthropic env transport r m h =
        Except.ok (acceptWith "Evaluator unavailable")) ∧
    ((∀ m ∈ history, m.isDictMsg = true) →
      genLoop env (gens 0) = Except.ok (some out) →
      out.newMessages = [] →
      ∃ t, chat env me gens evals message history = Except.ok (some t) ∧
        t.attempts = 0 ∧ t.records.length = 1 ∧ t.reply = out.reply) := by
  have hfalsy : isFalsyStr env.anthropicApiKey = true := by rw [hkey]; rfl
  constructor
  · intro transport r m h
    simp [evaluateWithAnthropic, hfalsy]
  · intro hh hg hn
    obtain ⟨rec0, hra0, hreply, hev, _, _, _⟩ :=
      runAttempt_notool_spec env (gens 0) (evals 0) (systemPrompt me) message history out hh hg hn
    have hacc : acceptableFlag rec0.evaluation = Except.ok true := by
      rw [hev, evalResult_of_no_key env (evals 0) hkey]
      exact acceptableFlag_acceptWith _
    have hchat : chat env me gens evals message history =
        Except.ok (some { records := [rec0], attempts := 0, reply := rec0.reply }) := by
      show chat env me gens evals message history = _
      simp only [chat, hra0]
      exact retryLoop_exit env gens evals message history (systemPrompt me) 2 rec0 [rec0] 0
        true hacc (Or.inl rfl)
    exact ⟨_, hchat, rfl, rfl, hreply⟩

/-- C3 (witness): concrete instantiation of
`evaluator_unavailable_accepts_and_zero_retries`. -/
theorem evaluator_unavailable_accepts_and_zero_retries_witness :
    (evaluateWithAnthropic ⟨none, none, none⟩ (Except.error "boom") "r" "m" [] =
      Except.ok (acceptWith "Evaluator unavailable")) ∧
    (∃ t, chat ⟨none, none, none⟩ ⟨"Joshua", "", "", "s"⟩
        (fun _ => [⟨"stop", "hi", []⟩]) (fun _ => Except.error "x") "hey" [] =
        Except.ok (some t) ∧
      t.attempts = 0 ∧ t.records.length = 1 ∧ t.reply = "hi") := by
  have h := evaluator_unavailable_accepts_and_zero_retries
    ⟨none, none, none⟩ ⟨"Joshua", "", "", "s"⟩
    (fun _ => [⟨"stop", "hi", []⟩]) (fun _ => Except.error "x") "hey" []
    ⟨"hi", [], [], 1⟩ rfl
  refine ⟨h.1 (Except.error "boom") "r" "m" [], ?_⟩
  obtain ⟨t, ht1, ht2, ht3, ht4⟩ := h.2 (by simp) rfl rfl
  exact ⟨t, ht1, ht2, ht3, ht4⟩

/-- C3 (counterexample to the claim as stated): with the credential absent
but the generation issuing one tool call, `chat` does not return the first
generated reply at all — it raises `TypeError` while building the evaluator
history, because the SDK assistant message object is not subscriptable. -/
theorem evaluator_unavailable_zero_retries_cex :
    ((⟨none, none, none⟩ : Env).anthropicApiKey = none) ∧
    chat ⟨none, none, none⟩ ⟨"Joshua", "", "", "s"⟩
      (fun _ => [⟨"tool_calls", "",
                   [⟨"call_7", ⟨"record_user_details", "\x7b\"email\": \"a@b.com\"\x7d"⟩⟩]⟩,
                 ⟨"stop", "thanks", []⟩])
      (fun _ => Except.error "never called") "hello" [] =
      Except.error "TypeError: ChatCompletionMessage object is not subscriptable" :=
  ⟨rfl, rfl⟩

/-- An evaluation that the retry guard can test also supports the feedback
lookup (both require the evaluation to be a dict). -/
theorem pyDictGet_feedback_of_flag (ev : Json) (b : Bool)
    (hacc : acceptableFlag ev = Except.ok b) :
    ∃ fb, pyDictGet ev "feedback" (Json.str "") = Except.ok fb := by
  obtain ⟨kvs, rfl⟩ := acceptableFlag_ok_obj ev b hacc
  exact ⟨_, rfl⟩

/-- C1 (amended): over a dict history, if every generation attempt completes
without tool rounds and the evaluator rejects every evaluation, the retry
loop still terminates after exactly 2 retry rounds (3 attempt records), the
`attempts` counter stops at the hard cap 2, and the last-generated reply is
returned despite its rejection.  (The no-tool-round proviso is forced: a
tool round crashes the turn with a `TypeError` before any evaluation, see
the counterexample.) -/
theorem chat_always_rejected_caps_at_two_retries
    (env : Env) (me : Me) (gens : Nat → List ModelResponse)
    (evals : Nat → Except String Json) (message : String) (history : List Message)
    (outs : Nat → GenOut)
    (hh : ∀ m ∈ history, m.isDictMsg = true)
    (hgen : ∀ i, genLoop env (gens i) = Except.ok (some (outs i)))
    (hnotool : ∀ i, (outs i).newMessages = [])
    (hrej : ∀ i, acceptableFlag (evalResult env (evals i)) = Except.ok false) :
    ∃ t, chat env me gens evals message history = Except.ok (some t) ∧
      t.records.length = 3 ∧ t.attempts = 2 ∧ t.reply = (outs 2).reply := by
  obtain ⟨r0, hra0, hrep0, hev0, _, _, _⟩ :=
    runAttempt_notool_spec env (gens 0) (evals 0) (systemPrompt me) message history
      (outs 0) hh (hgen 0) (hnotool 0)
  have hacc0 : acceptableFlag r0.evaluation = Except.ok false := by rw [hev0]; exact hrej 0
  obtain ⟨fb0, hfb0⟩ := pyDictGet_feedback_of_flag r0.evaluation false hacc0
  obtain ⟨r1, hra1, hrep1, hev1, _, _, _⟩ :=
    runAttempt_notool_spec env (gens 1) (evals 1)
      (improvedSystem (systemPrompt me) r0.reply (pyFormat fb0)) message history
      (outs 1) hh (hgen 1) (hnotool 1)
  have hacc1 : acceptableFlag r1.evaluation = Except.ok false := by rw [hev1]; exact hrej 1
  obtain ⟨fb1, hfb1⟩ := pyDictGet_feedback_of_flag r1.evaluation false hacc1
  obtain ⟨r2, hra2, hrep2, hev2, _, _, _⟩ :=
    runAttempt_notool_spec env (gens 2) (evals 2)
      (improvedSystem (systemPrompt me) r1.reply (pyFormat fb1)) message history
      (outs 2) hh (hgen 2) (hnotool 2)
  have hacc2 : acceptableFlag r2.evaluation = Except.ok false := by rw [hev2]; exact hrej 2
  have hchat : chat env me gens evals message history =
      Except.ok (some { records := [r0, r1, r2], attempts := 2, reply := r2.reply }) := by
    calc chat env me gens evals message history
        = retryLoop env gens evals message history (systemPrompt me) 3 r0 [r0] 0 := by
          simp only [chat, hra0]
      _ = retryLoop env gens evals message history (systemPrompt me) 2 r1 [r0, r1] 1 :=
          retryLoop_step env gens evals message history (systemPrompt me) 2 r0 [r0] 0
            fb0 r1 hacc0 (by omega) hfb0 hra1
      _ = retryLoop env gens evals message history (systemPrompt me) 1 r2 [r0, r1, r2] 2 :=
          retryLoop_step env gens evals message history (systemPrompt me) 1 r1 [r0, r1] 1
            fb1 r2 hacc1 (by omega) hfb1 hra2
      _ = Except.ok (some { records := [r0, r1, r2], attempts := 2, reply := r2.reply }) :=
          retryLoop_exit env gens evals message history (systemPrompt me) 0 r2 [r0, r1, r2] 2
            false hacc2 (Or.inr (by omega))
  exact ⟨_, hchat, rfl, rfl, hrep2⟩

/-- C1 (witness): concrete instantiation of
`chat_always_rejected_caps_at_two_retries` with an evaluator transport whose
body always parses to `{"is_acceptable": false, "feedback": "bad"}`. -/
theorem chat_always_rejected_caps_at_two_retries_witness :
    ∃ t, chat ⟨none, none, some "k"⟩ ⟨"Joshua", "", "", "s"⟩
        (fun _ => [⟨"stop", "hi", []⟩])
        (fun _ => Except.ok (Json.obj [("content", Json.arr [Json.obj [("text",
          Json.str "\x7b\"is_acceptable\": false, \"feedback\": \"bad\"\x7d")]])]))
        "query" [] = Except.ok (some t) ∧
      t.records.length = 3 ∧ t.attempts = 2 ∧ t.reply = "hi" := by
  have h := chat_always_rejected_caps_at_two_retries
    ⟨none, none, some "k"⟩ ⟨"Joshua", "", "", "s"⟩
    (fun _ => [⟨"stop", "hi", []⟩])
    (fun _ => Except.ok (Json.obj [("content", Json.arr [Json.obj [("text",
      Json.str "\x7b\"is_acceptable\": false, \"feedback\": \"bad\"\x7d")]])]))
    "query" [] (fun _ => ⟨"hi", [], [], 1⟩)
    (by simp) (fun i => rfl) (fun i => rfl) (fun i => rfl)
  obtain ⟨t, ht1, ht2, ht3, ht4⟩ := h
  exact ⟨t, ht1, ht2, ht3, ht4⟩

/-- C1 (counterexample to the claim as stated): an always-rejecting
evaluator oracle, but the single input turn's generation issues one tool
call; `chat` then performs zero retry rounds and returns no reply — it
raises `TypeError` while building the evaluator history. -/
theorem chat_always_rejected_claim_cex :
    (acceptableFlag (evalResult ⟨none, none, some "k"⟩
        (Except.ok (Json.obj [("content", Json.arr [Json.obj [("text",
          Json.str "\x7b\"is_acceptable\": false, \"feedback\": \"bad\"\x7d")]])]))) =
      Except.ok false) ∧
    chat ⟨none, none, some "k"⟩ ⟨"Joshua", "", "", "s"⟩
      (fun _ => [⟨"tool_calls", "",
                   [⟨"call_3", ⟨"record_unknown_question", "\x7b\"question\": \"who\"\x7d"⟩⟩]⟩,
                 ⟨"stop", "done", []⟩])
      (fun _ => Except.ok (Json.obj [("content", Json.arr [Json.obj [("text",
        Json.str "\x7b\"is_acceptable\": false, \"feedback\": \"bad\"\x7d")]])]))
      "query" [] =
      Except.error "TypeError: ChatCompletionMessage object is not subscriptable" :=
  ⟨rfl, rfl⟩

/-- C8: an attempt in which the model issues a tool call executes the tool
(the notification sink receives the contact, first conjunct) and the
generation loop completes with the final text; but `chat` then raises
`TypeError` while filtering `messages` for the evaluator history — the SDK
assistant message object appended during the tool round is not
subscriptable — so the evaluator never receives the sequence and the turn
does not complete normally (second conjunct). -/
theorem tool_round_turn_raises_typeerror :
    genLoop ⟨some "tok", some "usr", some "k"⟩
      [⟨"tool_calls", "",
         [⟨"call_1", ⟨"record_user_details",
            "\x7b\"email\": \"a@b.com\", \"name\": \"Ada\"\x7d"⟩⟩]⟩,
       ⟨"stop", "thanks, noted!", []⟩] =
      Except.ok (some
        { reply := "thanks, noted!"
          newMessages :=
            [Message.apiObj ""
               [⟨"call_1", ⟨"record_user_details",
                  "\x7b\"email\": \"a@b.com\", \"name\": \"Ada\"\x7d"⟩⟩],
             Message.dict "tool" "\x7b\"recorded\": \"ok\"\x7d" (some "call_1")]
          pushes := ["New contact: Ada\nEmail: a@b.com\nNotes: not provided"]
          rounds := 2 }) ∧
    chat ⟨some "tok", some "usr", some "k"⟩ ⟨"Joshua", "", "", "s"⟩
      (fun _ => [⟨"tool_calls", "",
                   [⟨"call_1", ⟨"record_user_details",
                      "\x7b\"email\": \"a@b.com\", \"name\": \"Ada\"\x7d"⟩⟩]⟩,
                 ⟨"stop", "thanks, noted!", []⟩])
      (fun _ => Except.error "never reached")
      "My email is a@b.com, please keep in touch" [] =
      Except.error "TypeError: ChatCompletionMessage object is not subscriptable" :=
  ⟨rfl, rfl⟩

/-- Looking a key up past a prefix that does not contain it. -/
theorem kwLookup_append_of_none (a b : List (String × Json)) (k : String)
    (h : kwLookup a k = none) : kwLookup (a ++ b) k = kwLookup b k := by
  induction a with
  | nil => rfl
  | cons p rest ih =>
    obtain ⟨k', v'⟩ := p
    by_cases hk : k' = k
    · exfalso; simp [kwLookup, List.find?, hk] at h
    · simp only [kwLookup, List.cons_append, List.find?] at h ⊢
      have hd : (decide (k' = k)) = false := by simp [hk]
      rw [hd] at h ⊢
      exact ih h

/-- A singleton dict with a different key contains no binding for `k`. -/
theorem kwLookup_singleton_of_ne (k k' : String) (v : Json) (h : ¬ k' = k) :
    kwLookup [(k', v)] k = none := by
  simp [kwLookup, List.find?, h]

/-- A binding found in the prefix survives appending. -/
theorem kwLookup_append_of_some (a b : List (String × Json)) (k : String) (v : Json)
    (h : kwLookup a k = some v) : kwLookup (a ++ b) k = some v := by
  induction a with
  | nil => simp [kwLookup] at h
  | cons p rest ih =>
    obtain ⟨k', v'⟩ := p
    by_cases hk : k' = k
    · simp only [kwLookup, List.find?, List.cons_append] at h ⊢
      have hd : (decide (k' = k)) = true := by simp [hk]
      rw [hd] at h ⊢
      exact h
    · simp only [kwLookup, List.find?, List.cons_append] at h ⊢
      have hd : (decide (k' = k)) = false := by simp [hk]
      rw [hd] at h ⊢
      exact ih h

/-- C2: the evaluator degrades rather than rejects on its own failure.
With the credential configured and a serializable history: (1) it always
returns a value; (2) if the model text fails to parse as JSON the result is
acceptance with the raw text stripped and truncated to 400 characters as
feedback; (3)-(5) a parsed dict missing `is_acceptable` gets it filled with
`True` and a missing `feedback` gets the empty string (appended in that
order); (6) any exception in the transport round-trip yields acceptance
with the error string as feedback. -/
theorem evaluator_soft_failure_contract
    (env : Env) (hist : List Message) (js : List Json) (reply msg : String)
    (body : Json) (text : String) (kvs : List (String × Json)) (e : String)
    (hk : isFalsyStr env.anthropicApiKey = false)
    (hser : msgsToJson hist = Except.ok js) :
    (∀ t, ∃ j, evaluateWithAnthropic env t reply msg hist = Except.ok j) ∧
    (extractText body = Except.ok text → Json.parse text = none →
      evaluateWithAnthropic env (Except.ok body) reply msg hist =
        Except.ok (acceptWith (pySlice (pyStrip text) 400))) ∧
    (extractText body = Except.ok text → Json.parse text = some (Json.obj kvs) →
      kwLookup kvs "is_acceptable" = none → kwLookup kvs "feedback" = none →
      evaluateWithAnthropic env (Except.ok body) reply msg hist =
        Except.ok (Json.obj (kvs ++ [("is_acceptable", Json.bool true),
                                     ("feedback", Json.str "")]))) ∧
    (extractText body = Except.ok text → Json.parse text = some (Json.obj kvs) →
      kwLookup kvs "is_acceptable" = none → (∃ v, kwLookup kvs "feedback" = some v) →
      evaluateWithAnthropic env (Except.ok body) reply msg hist =
        Except.ok (Json.obj (kvs ++ [("is_acceptable", Json.bool true)]))) ∧
    (extractText body = Except.ok text → Json.parse text = some (Json.obj kvs) →
      (∃ v, kwLookup kvs "is_acceptable" = some v) → kwLookup kvs "feedback" = none →
      evaluateWithAnthropic env (Except.ok body) reply msg hist =
        Except.ok (Json.obj (kvs ++ [("feedback", Json.str "")]))) ∧
    (evaluateWithAnthropic env (Except.error e) reply msg hist =
      Except.ok (acceptWith e)) := by
  have hbase : ∀ t, evaluateWithAnthropic env t reply msg hist =
      Except.ok (evalTryBody t) := by
    intro t
    rw [evaluateWithAnthropic_ok env t reply msg hist js hser]
    simp [hk]
  refine ⟨fun t => ⟨_, hbase t⟩, ?_, ?_, ?_, ?_, ?_⟩
  · intro hx hp
    rw [hbase]
    simp only [evalTryBody, hx, hp]
    rfl
  · intro hx hp hia hfb
    rw [hbase]
    simp only [evalTryBody, hx, hp]
    have h1 : pyContains (Json.obj kvs) "is_acceptable" = Except.ok false := by
      simp [pyContains, hia]
    have hset1 : insertKV kvs "is_acceptable" (Json.bool true) =
        kvs ++ [("is_acceptable", Json.bool true)] :=
      insertKV_of_lookup_none kvs "is_acceptable" (Json.bool true) hia
    have h2 : kwLookup (kvs ++ [("is_acceptable", Json.bool true)]) "feedback" = none := by
      rw [kwLookup_append_of_none kvs _ "feedback" hfb]
      exact kwLookup_singleton_of_ne "feedback" "is_acceptable" (Json.bool true) (by decide)
    have hset2 : insertKV (kvs ++ [("is_acceptable", Json.bool true)]) "feedback" (Json.str "") =
        (kvs ++ [("is_acceptable", Json.bool true)]) ++ [("feedback", Json.str "")] :=
      insertKV_of_lookup_none _ "feedback" (Json.str "") h2
    simp [h1, pySetItem, hset1, pyContains, h2, hset2, hia]
  · intro hx hp hia hfb
    obtain ⟨v, hv⟩ := hfb
    rw [hbase]
    simp only [evalTryBody, hx, hp]
    have h1 : pyContains (Json.obj kvs) "is_acceptable" = Except.ok false := by
      simp [pyContains, hia]
    have hset1 : insertKV kvs "is_acceptable" (Json.bool true) =
        kvs ++ [("is_acceptable", Json.bool true)] :=
      insertKV_of_lookup_none kvs "is_acceptable" (Json.bool true) hia
    have h2 : kwLookup (kvs ++ [("is_acceptable", Json.bool true)]) "feedback" = some v :=
      kwLookup_append_of_some kvs _ "feedback" v hv
    simp [h1, pySetItem, hset1, pyContains, h2, hia]
  · intro hx hp hia hfb
    obtain ⟨v, hv⟩ := hia
    rw [hbase]
    simp only [evalTryBody, hx, hp]
    have h1 : pyContains (Json.obj kvs) "is_acceptable" = Except.ok true := by
      simp [pyContains, hv]
    have h2 : pyContains (Json.obj kvs) "feedback" = Except.ok false := by
      simp [pyContains, hfb]
    have hset2 : insertKV kvs "feedback" (Json.str "") = kvs ++ [("feedback", Json.str "")] :=
      insertKV_of_lookup_none kvs "feedback" (Json.str "") hfb
    simp [h1, h2, pySetItem, hset2]
  · rw [hbase]
    rfl

/-- C2 (witness): concrete instantiations of
`evaluator_soft_failure_contract` — unparsable text, a dict missing both
fields, each field missing separately, and a transport exception. -/
theorem evaluator_soft_failure_contract_witness :
    (∃ j, evaluateWithAnthropic ⟨none, none, some "k"⟩ (Except.error "boom") "r" "m" [] =
      Except.ok j) ∧
    (evaluateWithAnthropic ⟨none, none, some "k"⟩
        (Except.ok (Json.obj [("content", Json.arr [Json.obj [("text",
          Json.str "  I liked this reply ")]])])) "r" "m" [] =
      Except.ok (acceptWith (pySlice (pyStrip "  I liked this reply ") 400))) ∧
    (evaluateWithAnthropic ⟨none, none, some "k"⟩
        (Except.ok (Json.obj [("content", Json.arr [Json.obj [("text",
          Json.str "\x7b\"x\": 1\x7d")]])])) "r" "m" [] =
      Except.ok (Json.obj ([("x", Json.num 1)] ++
        [("is_acceptable", Json.bool true), ("feedback", Json.str "")]))) ∧
    (evaluateWithAnthropic ⟨none, none, some "k"⟩
        (Except.ok (Json.obj [("content", Json.arr [Json.obj [("text",
          Json.str "\x7b\"feedback\": \"y\"\x7d")]])])) "r" "m" [] =
      Except.ok (Json.obj ([("feedback", Json.str "y")] ++
        [("is_acceptable", Json.bool true)]))) ∧
    (evaluateWithAnthropic ⟨none, none, some "k"⟩
        (Except.ok (Json.obj [("content", Json.arr [Json.obj [("text",
          Json.str "\x7b\"is_acceptable\": true\x7d")]])])) "r" "m" [] =
      Except.ok (Json.obj ([("is_acceptable", Json.bool true)] ++
        [("feedback", Json.str "")]))) ∧
    (evaluateWithAnthropic ⟨none, none, some "k"⟩ (Except.error "boom") "r" "m" [] =
      Except.ok (acceptWith "boom")) := by
  refine ⟨?_, ?_, ?_, ?_, ?_, ?_⟩
  · exact (evaluator_soft_failure_contract ⟨none, none, some "k"⟩ [] [] "r" "m"
      Json.null "" [] "boom" rfl rfl).1 (Except.error "boom")
  · exact (evaluator_soft_failure_contract ⟨none, none, some "k"⟩ [] [] "r" "m"
      (Json.obj [("content", Json.arr [Json.obj [("text",
        Json.str "  I liked this reply ")]])])
      "  I liked this reply " [] "boom" rfl rfl).2.1 rfl rfl
  · exact (evaluator_soft_failure_contract ⟨none, none, some "k"⟩ [] [] "r" "m"
      (Json.obj [("content", Json.arr [Json.obj [("text",
        Json.str "\x7b\"x\": 1\x7d")]])])
      "\x7b\"x\": 1\x7d" [("x", Json.num 1)] "boom" rfl rfl).2.2.1 rfl rfl rfl rfl
  · exact (evaluator_soft_failure_contract ⟨none, none, some "k"⟩ [] [] "r" "m"
      (Json.obj [("content", Json.arr [Json.obj [("text",
        Json.str "\x7b\"feedback\": \"y\"\x7d")]])])
      "\x7b\"feedback\": \"y\"\x7d" [("feedback", Json.str "y")] "boom"
      rfl rfl).2.2.2.1 rfl rfl rfl ⟨Json.str "y", rfl⟩
  · exact (evaluator_soft_failure_contract ⟨none, none, some "k"⟩ [] [] "r" "m"
      (Json.obj [("content", Json.arr [Json.obj [("text",
        Json.str "\x7b\"is_acceptable\": true\x7d")]])])
      "\x7b\"is_acceptable\": true\x7d" [("is_acceptable", Json.bool true)] "boom"
      rfl rfl).2.2.2.2.1 rfl rfl ⟨Json.bool true, rfl⟩ rfl
  · exact (evaluator_soft_failure_contract ⟨none, none, some "k"⟩ [] [] "r" "m"
      Json.null "" [] "boom" rfl rfl).2.2.2.2.2

/-- A non-dict evaluation makes the retry guard raise. -/
theorem retryLoop_guard_error (env : Env) (gens : Nat → List ModelResponse)
    (evals : Nat → Except String Json) (message : String) (history : List Message)
    (base : String) (fuel : Nat) (prev : AttemptRec) (recs : List AttemptRec)
    (attempts : Nat) (e : String)
    (hacc : acceptableFlag prev.evaluation = Except.error e) :
    retryLoop env gens evals message history base (fuel + 1) prev recs attempts =
      Except.error e := by
  simp [retryLoop, hacc]

/-- A failing regeneration propagates out of the retry loop. -/
theorem retryLoop_regen_error (env : Env) (gens : Nat → List ModelResponse)
    (evals : Nat → Except String Json) (message : String) (history : List Message)
    (base : String) (fuel : Nat) (prev : AttemptRec) (recs : List AttemptRec)
    (attempts : Nat) (fb : Json) (e : String)
    (hacc : acceptableFlag prev.evaluation = Except.ok false)
    (hlt : attempts < 2)
    (hfb : pyDictGet prev.evaluation "feedback" (Json.str "") = Except.ok fb)
    (hra : runAttempt env (gens (attempts + 1)) (evals (attempts + 1))
        (improvedSystem base prev.reply (pyFormat fb)) message history =
        Except.error e) :
    retryLoop env gens evals message history base (fuel + 1) prev recs attempts =
      Except.error e := by
  simp [retryLoop, hacc, hlt, hfb, hra]

/-- An exhausted regeneration oracle propagates as an unfinished turn. -/
theorem retryLoop_regen_none (env : Env) (gens : Nat → List ModelResponse)
    (evals : Nat → Except String Json) (message : String) (history : List Message)
    (base : String) (fuel : Nat) (prev : AttemptRec) (recs : List AttemptRec)
    (attempts : Nat) (fb : Json)
    (hacc : acceptableFlag prev.evaluation = Except.ok false)
    (hlt : attempts < 2)
    (hfb : pyDictGet prev.evaluation "feedback" (Json.str "") = Except.ok fb)
    (hra : runAttempt env (gens (attempts + 1)) (evals (attempts + 1))
        (improvedSystem base prev.reply (pyFormat fb)) message history =
        Except.ok none) :
    retryLoop env gens evals message history base (fuel + 1) prev recs attempts =
      Except.ok none := by
  simp [retryLoop, hacc, hlt, hfb, hra]

/-- Any trace the retry loop completes extends its accumulator by
`RetryStep`-linked records: every appended record was produced by
`runAttempt` from the augmented system context built out of its
predecessor's reply and feedback. -/
theorem retryLoop_chain (env : Env) (gens : Nat → List ModelResponse)
    (evals : Nat → Except String Json) (message : String) (history : List Message)
    (base : String) :
    ∀ fuel (prev : AttemptRec) (recs : List AttemptRec) (attempts : Nat) (t : ChatTrace),
      recs.getLast? = some prev →
      List.Chain' (RetryStep base history message) recs →
      retryLoop env gens evals message history base fuel prev recs attempts =
        Except.ok (some t) →
      List.Chain' (RetryStep base history message) t.records := by
  intro fuel
  induction fuel with
  | zero =>
    intro prev recs attempts t _ _ h
    simp [retryLoop] at h
  | succ fuel ih =>
    intro prev recs attempts t hlast hchain h
    cases hacc : acceptableFlag prev.evaluation with
    | error e =>
      rw [retryLoop_guard_error env gens evals message history base fuel prev recs attempts
        e hacc] at h
      simp at h
    | ok acc =>
      by_cases hcond : acc = false ∧ attempts < 2
      · cases hfb : pyDictGet prev.evaluation "feedback" (Json.str "") with
        | error e =>
          obtain ⟨kvs, hkvs⟩ := acceptableFlag_ok_obj prev.evaluation acc hacc
          rw [hkvs] at hfb
          exact absurd hfb (by simp [pyDictGet])
        | ok fb =>
          cases hra : runAttempt env (gens (attempts + 1)) (evals (attempts + 1))
              (improvedSystem base prev.reply (pyFormat fb)) message history with
          | error e =>
            rw [retryLoop_regen_error env gens evals message history base fuel prev recs
              attempts fb e (hcond.1 ▸ hacc) hcond.2 hfb hra] at h
            simp at h
          | ok o =>
            cases o with
            | none =>
              rw [retryLoop_regen_none env gens evals message history base fuel prev recs
                attempts fb (hcond.1 ▸ hacc) hcond.2 hfb hra] at h
              simp at h
            | some rec =>
              rw [retryLoop_step env gens evals message history base fuel prev recs attempts
                fb rec (hcond.1 ▸ hacc) hcond.2 hfb hra] at h
              refine ih rec (recs ++ [rec]) (attempts + 1) t (List.getLast?_concat recs) ?_ h
              rw [List.chain'_append]
              refine ⟨hchain, List.chain'_singleton rec, ?_⟩
              intro x hx y hy
              rw [hlast] at hx
              simp only [Option.mem_def, Option.some.injEq] at hx
              simp only [List.head?_cons, Option.mem_def, Option.some.injEq] at hy
              subst hx
              subst hy
              obtain ⟨hsys, hsent⟩ := runAttempt_shape env (gens (attempts + 1))
                (evals (attempts + 1)) (improvedSystem base prev.reply (pyFormat fb))
                message history rec hra
              exact ⟨fb, hfb, hsys, by rw [hsent, hsys]⟩
      · rw [retryLoop_exit env gens evals message history base fuel prev recs attempts acc
          hacc (by rcases Bool.eq_false_or_eq_true acc with hb | hb
                   · left; exact hb
                   · right
                     rcases Nat.lt_or_ge attempts 2 with hlt | hge
                     · exact absurd ⟨hb, hlt⟩ hcond
                     · exact hge)] at h
        rw [Except.ok.injEq, Option.some.injEq] at h
        subst h
        exact hchain

/-- C4: in any completed chat trace, every retry record's system context is
the original system prompt plus the rejection block built from its
predecessor's verbatim reply and feedback, and its message sequence is
rebuilt as `[new system] + original history + original user turn` — so no
message from the failed attempt's tool rounds is carried over; moreover the
augmented context contains the reply and the feedback verbatim as
substrings. -/
theorem retry_rebuilds_from_original_turn
    (env : Env) (me : Me) (gens : Nat → List ModelResponse)
    (evals : Nat → Except String Json) (message : String) (history : List Message)
    (t : ChatTrace)
    (h : chat env me gens evals message history = Except.ok (some t)) :
    List.Chain' (RetryStep (systemPrompt me) history message) t.records ∧
    (∀ base r fb, r.data <:+: (improvedSystem base r fb).data ∧
                  fb.data <:+: (improvedSystem base r fb).data) := by
  constructor
  · simp only [chat] at h
    cases hra : runAttempt env (gens 0) (evals 0) (systemPrompt me) message history with
    | error e => rw [hra] at h; simp at h
    | ok o =>
      rw [hra] at h
      cases o with
      | none => simp at h
      | some rec0 =>
        exact retryLoop_chain env gens evals message history (systemPrompt me) 3 rec0 [rec0]
          0 t rfl (List.chain'_singleton rec0) h
  · intro base r fb
    constructor
    · refine ⟨(base ++ "\n\n## Previous answer rejected\n" ++
        "Your previous answer was:\n").data,
        ("\n\n" ++ "Reason for rejection (from evaluator):\n" ++ fb ++ "\n\n" ++
         "Revise your answer to address the feedback while staying faithful to the provided documents.").data, ?_⟩
      simp [improvedSystem, List.append_assoc]
    · refine ⟨(base ++ "\n\n## Previous answer rejected\n" ++
        "Your previous answer was:\n" ++ r ++ "\n\n" ++
        "Reason for rejection (from evaluator):\n").data,
        ("\n\n" ++
         "Revise your answer to address the feedback while staying faithful to the provided documents.").data, ?_⟩
      simp [improvedSystem, List.append_assoc]

/-- C4 (witness): a chat run whose evaluator rejects the first attempt and
accepts the second; the resulting two-record trace satisfies the retry
relation. -/
theorem retry_rebuilds_from_original_turn_witness :
    ∃ t, chat ⟨none, none, some "k"⟩ ⟨"Joshua", "", "", "s"⟩
        (fun i => [⟨"stop", if i = 0 then "hi" else "better", []⟩])
        (fun i => if i = 0 then
            Except.ok (Json.obj [("content", Json.arr [Json.obj [("text",
              Json.str "\x7b\"is_acceptable\": false, \"feedback\": \"too informal\"\x7d")]])])
          else
            Except.ok (Json.obj [("content", Json.arr [Json.obj [("text",
              Json.str "\x7b\"is_acceptable\": true, \"feedback\": \"good\"\x7d")]])]))
        "msg" [] = Except.ok (some t) ∧
      List.Chain' (RetryStep (systemPrompt ⟨"Joshua", "", "", "s"⟩) [] "msg") t.records := by
  obtain ⟨t, ht⟩ : ∃ t, chat ⟨none, none, some "k"⟩ ⟨"Joshua", "", "", "s"⟩
      (fun i => [⟨"stop", if i = 0 then "hi" else "better", []⟩])
      (fun i => if i = 0 then
          Except.ok (Json.obj [("content", Json.arr [Json.obj [("text",
            Json.str "\x7b\"is_acceptable\": false, \"feedback\": \"too informal\"\x7d")]])])
        else
          Except.ok (Json.obj [("content", Json.arr [Json.obj [("text",
            Json.str "\x7b\"is_acceptable\": true, \"feedback\": \"good\"\x7d")]])]))
      "msg" [] = Except.ok (some t) := ⟨_, rfl⟩
  exact ⟨t, ht, (retry_rebuilds_from_original_turn ⟨none, none, some "k"⟩
    ⟨"Joshua", "", "", "s"⟩
    (fun i => [⟨"stop", if i = 0 then "hi" else "better", []⟩])
    (fun i => if i = 0 then
        Except.ok (Json.obj [("content", Json.arr [Json.obj [("text",
          Json.str "\x7b\"is_acceptable\": false, \"feedback\": \"too informal\"\x7d")]])])
      else
        Except.ok (Json.obj [("content", Json.arr [Json.obj [("text",
          Json.str "\x7b\"is_acceptable\": true, \"feedback\": \"good\"\x7d")]])]))
    "msg" [] t ht).1⟩

/-- An oracle of `n` tool-call responses followed by a final one drives the
generation loop through `n + 1` model calls. -/
theorem genLoop_replicate (env : Env) (n : Nat) :
    genLoop env (List.replicate n ⟨"tool_calls", "", []⟩ ++ [⟨"stop", "done", []⟩]) =
      Except.ok (some ⟨"done", List.replicate n (Message.apiObj "" []), [], n + 1⟩) := by
  induction n with
  | zero => rfl
  | succ n ih =>
    rw [List.replicate_succ, List.cons_append]
    simp [genLoop, handle_tool_call, ih, List.replicate_succ]

/-- The generation loop stops exactly at the first response whose finish
reason is not `"tool_calls"`, and its round count is the number of
responses consumed. -/
theorem genLoop_shape (env : Env) :
    ∀ (oracle : List ModelResponse) (out : GenOut),
      genLoop env oracle = Except.ok (some out) →
      ∃ pre r rest, oracle = pre ++ r :: rest ∧
        (∀ p ∈ pre, p.finish_reason = "tool_calls") ∧
        r.finish_reason ≠ "tool_calls" ∧
        out.rounds = pre.length + 1 ∧ out.reply = r.content := by
  intro oracle
  induction oracle with
  | nil => intro out h; simp [genLoop] at h
  | cons resp rest ih =>
    intro out h
    by_cases hfr : resp.finish_reason = "tool_calls"
    · rw [genLoop, if_pos hfr] at h
      cases hd : handle_tool_call env resp.tool_calls with
      | error e => rw [hd] at h; simp at h
      | ok p =>
        obtain ⟨results, pushes⟩ := p
        rw [hd] at h
        cases hg : genLoop env rest with
        | error e => rw [hg] at h; simp at h
        | ok o =>
          rw [hg] at h
          cases o with
          | none => simp at h
          | some out' =>
            rw [Except.ok.injEq, Option.some.injEq] at h
            obtain ⟨pre, r, rest', hrest, hpre, hr, hrounds, hreply⟩ := ih out' hg
            refine ⟨resp :: pre, r, rest', by simp [hrest], ?_, hr, ?_, ?_⟩
            · intro p hp
              rcases List.mem_cons.mp hp with rfl | hp
              · exact hfr
              · exact hpre p hp
            · rw [← h]
              simp [hrounds]
            · rw [← h]
              simpa using hreply
    · rw [genLoop, if_neg hfr] at h
      rw [Except.ok.injEq, Option.some.injEq] at h
      refine ⟨[], resp, rest, rfl, by simp, hfr, ?_, ?_⟩
      · rw [← h]
        rfl
      · rw [← h]


/-- C5: the generation tool-call loop has no fixed iteration bound — for
every `N` there is a sequence of tool-calling model responses driving it
through more than `N` rounds — and it terminates only at the first response
whose finish condition is not `"tool_calls"`. -/
theorem gen_loop_unbounded (env : Env) :
    (∀ N, ∃ oracle out, genLoop env oracle = Except.ok (some out) ∧ N < out.rounds) ∧
    (∀ oracle out, genLoop env oracle = Except.ok (some out) →
      ∃ pre r rest, oracle = pre ++ r :: rest ∧
        (∀ p ∈ pre, p.finish_reason = "tool_calls") ∧
        r.finish_reason ≠ "tool_calls" ∧
        out.rounds = pre.length + 1 ∧ out.reply = r.content) := by
  constructor
  · intro N
    exact ⟨List.replicate N ⟨"tool_calls", "", []⟩ ++ [⟨"stop", "done", []⟩],
      ⟨"done", List.replicate N (Message.apiObj "" []), [], N + 1⟩,
      genLoop_replicate env N, Nat.lt_succ_self N⟩
  · exact genLoop_shape env

/-- C5 (witness): five tool rounds exceed the bound 4, and a concrete
two-response oracle decomposes as tool-call prefix plus terminator. -/
theorem gen_loop_unbounded_witness :
    (∃ oracle out, genLoop ⟨none, none, none⟩ oracle = Except.ok (some out) ∧
      4 < out.rounds) ∧
    (∃ pre r rest,
      ([⟨"tool_calls", "", []⟩, ⟨"stop", "done", []⟩] : List ModelResponse) =
        pre ++ r :: rest ∧
      (∀ p ∈ pre, p.finish_reason = "tool_calls") ∧
      r.finish_reason ≠ "tool_calls" ∧
      (⟨"done", [Message.apiObj "" []], [], 2⟩ : GenOut).rounds = pre.length + 1 ∧
      (⟨"done", [Message.apiObj "" []], [], 2⟩ : GenOut).reply = r.content) :=
  ⟨(gen_loop_unbounded ⟨none, none, none⟩).1 4,
   (gen_loop_unbounded ⟨none, none, none⟩).2
     [⟨"tool_calls", "", []⟩, ⟨"stop", "done", []⟩]
     ⟨"done", [Message.apiObj "" []], [], 2⟩ rfl⟩

/-- C6: a tool call whose name resolves to no module global does not raise:
dispatch falls back to the empty-object payload `{}` for that call, and the
generation loop carries on to the model's final text. -/
theorem unknown_tool_empty_payload (env : Env) (tc : ToolCall) (j : Json) (c r : String)
    (hg : globalsGet tc.function.name = none)
    (hp : Json.parse tc.function.arguments = some j) :
    handle_tool_call env [tc] =
      Except.ok ([Message.dict "tool" "\x7b\x7d" (some tc.id)], []) ∧
    genLoop env [⟨"tool_calls", c, [tc]⟩, ⟨"stop", r, []⟩] =
      Except.ok (some
        ⟨r, [Message.apiObj c [tc], Message.dict "tool" "\x7b\x7d" (some tc.id)], [], 2⟩) := by
  have hone : handle_tool_call env [tc] =
      Except.ok ([Message.dict "tool" "\x7b\x7d" (some tc.id)], []) := by
    simp only [handle_tool_call, hp, hg, dispatchTool]
    rfl
  refine ⟨hone, ?_⟩
  simp [genLoop, hone]

/-- C6 (witness): the hallucinated tool name `"delete_everything"` is
dispatched to `{}` and the conversation's generation completes. -/
theorem unknown_tool_empty_payload_witness :
    handle_tool_call ⟨none, none, none⟩
      [⟨"c2", ⟨"delete_everything", "\x7b\x7d"⟩⟩] =
      Except.ok ([Message.dict "tool" "\x7b\x7d" (some "c2")], []) ∧
    genLoop ⟨none, none, none⟩
      [⟨"tool_calls", "", [⟨"c2", ⟨"delete_everything", "\x7b\x7d"⟩⟩]⟩,
       ⟨"stop", "all good", []⟩] =
      Except.ok (some ⟨"all good",
        [Message.apiObj "" [⟨"c2", ⟨"delete_everything", "\x7b\x7d"⟩⟩],
         Message.dict "tool" "\x7b\x7d" (some "c2")], [], 2⟩) :=
  unknown_tool_empty_payload ⟨none, none, none⟩
    ⟨"c2", ⟨"delete_everything", "\x7b\x7d"⟩⟩ (Json.obj []) "" "all good" rfl rfl

/-- C7: a tool call whose argument string fails to decode as JSON is fatal
for the turn: `handle_tool_call` raises the decode error before any
dispatch (independently of the tool name, so no tool is invoked and no
default arguments are invented), the generation loop propagates it, and the
`chat` caller receives the turn-level failure. -/
theorem malformed_arguments_fatal (env : Env) (tc : ToolCall) (rest : List ToolCall)
    (c : String) (o : List ModelResponse) (me : Me)
    (gens : Nat → List ModelResponse) (evals : Nat → Except String Json)
    (message : String) (history : List Message)
    (hp : Json.parse tc.function.arguments = none) :
    handle_tool_call env (tc :: rest) =
      Except.error "JSONDecodeError: invalid tool arguments" ∧
    (∀ name', handle_tool_call env
        ({ id := tc.id, function := { name := name', arguments := tc.function.arguments } } :: rest) =
      Except.error "JSONDecodeError: invalid tool arguments") ∧
    genLoop env ({ finish_reason := "tool_calls", content := c, tool_calls := tc :: rest } :: o) =
      Except.error "JSONDecodeError: invalid tool arguments" ∧
    (gens 0 = { finish_reason := "tool_calls", content := c, tool_calls := tc :: rest } :: o →
      chat env me gens evals message history =
        Except.error "JSONDecodeError: invalid tool arguments") := by
  have hone : handle_tool_call env (tc :: rest) =
      Except.error "JSONDecodeError: invalid tool arguments" := by
    simp [handle_tool_call, hp]
  have hgen : genLoop env
      ({ finish_reason := "tool_calls", content := c, tool_calls := tc :: rest } :: o) =
      Except.error "JSONDecodeError: invalid tool arguments" := by
    simp [genLoop, hone]
  refine ⟨hone, ?_, hgen, ?_⟩
  · intro name'
    simp [handle_tool_call, hp]
  · intro hg0
    simp [chat, runAttempt, hg0, hgen]

/-- C7 (witness): a `record_user_details` call whose arguments are the
non-JSON string `"not json"` aborts dispatch, the loop and the turn. -/
theorem malformed_arguments_fatal_witness :
    handle_tool_call ⟨none, none, none⟩
      [⟨"c9", ⟨"record_user_details", "not json"⟩⟩] =
      Except.error "JSONDecodeError: invalid tool arguments" ∧
    (∀ name', handle_tool_call ⟨none, none, none⟩
        [⟨"c9", ⟨name', "not json"⟩⟩] =
      Except.error "JSONDecodeError: invalid tool arguments") ∧
    genLoop ⟨none, none, none⟩
      [⟨"tool_calls", "", [⟨"c9", ⟨"record_user_details", "not json"⟩⟩]⟩] =
      Except.error "JSONDecodeError: invalid tool arguments" ∧
    chat ⟨none, none, none⟩ ⟨"Joshua", "", "", "s"⟩
      (fun _ => [⟨"tool_calls", "", [⟨"c9", ⟨"record_user_details", "not json"⟩⟩]⟩])
      (fun _ => Except.error "never") "oops" [] =
      Except.error "JSONDecodeError: invalid tool arguments" := by
  have h := malformed_arguments_fatal ⟨none, none, none⟩
    ⟨"c9", ⟨"record_user_details", "not json"⟩⟩ [] "" [] ⟨"Joshua", "", "", "s"⟩
    (fun _ => [⟨"tool_calls", "", [⟨"c9", ⟨"record_user_details", "not json"⟩⟩]⟩])
    (fun _ => Except.error "never") "oops" [] rfl
  exact ⟨h.1, h.2.1, h.2.2.1, h.2.2.2 rfl⟩

/-- An answered call stays answered as the walked prefix grows. -/
theorem answeredIn_mono (prior l : List Message) (cid : String)
    (h : answeredIn prior cid = true) : answeredIn (prior ++ l) cid = true := by
  simp only [answeredIn, List.any_append, Bool.or_eq_true]
  exact Or.inl h

/-- The tool messages produced by one dispatch round have role `"tool"` and
carry exactly (in order) the ids of the dispatched calls. -/
theorem handle_tool_call_ids (env : Env) :
    ∀ (calls : List ToolCall) (msgs : List Message) (pushes : List String),
      handle_tool_call env calls = Except.ok (msgs, pushes) →
      msgs.map Message.tcid = calls.map (fun tc => some tc.id) ∧
      ∀ m ∈ msgs, m.roleOf = "tool" := by
  intro calls
  induction calls with
  | nil =>
    intro msgs pushes h
    simp only [handle_tool_call, Except.ok.injEq, Prod.mk.injEq] at h
    rw [← h.1]
    exact ⟨rfl, by simp⟩
  | cons tc rest ih =>
    intro msgs pushes h
    simp only [handle_tool_call] at h
    split at h
    · simp at h
    · split at h
      · simp at h
      · split at h
        · simp at h
        · rename_i msgs' ps hrest
          rw [Except.ok.injEq, Prod.mk.injEq] at h
          obtain ⟨hmsgs, _⟩ := h
          obtain ⟨ihmap, ihrole⟩ := ih msgs' ps hrest
          rw [← hmsgs]
          constructor
          · simp [Message.tcid, ihmap]
          · intro m hm
            rcases List.mem_cons.mp hm with rfl | hm
            · rfl
            · exact ihrole m hm

/-- Walking the tool messages of one dispatch round succeeds whenever every
dispatched call is already answered by the walked prefix. -/
theorem toolAnswered_results (env : Env) :
    ∀ (calls : List ToolCall) (results : List Message) (p : List String)
      (prior tail : List Message),
      handle_tool_call env calls = Except.ok (results, p) →
      (∀ tc ∈ calls, answeredIn prior tc.id = true) →
      toolAnsweredAux prior (results ++ tail) = toolAnsweredAux (prior ++ results) tail := by
  intro calls
  induction calls with
  | nil =>
    intro results p prior tail h _
    simp only [handle_tool_call, Except.ok.injEq, Prod.mk.injEq] at h
    rw [← h.1]
    simp
  | cons tc rest ih =>
    intro results p prior tail h hans
    simp only [handle_tool_call] at h
    cases hp : Json.parse tc.function.arguments with
    | none => simp only [hp] at h; simp at h
    | some args =>
      simp only [hp] at h
      cases hcall : dispatchTool env (globalsGet tc.function.name) args with
      | error e => simp only [hcall] at h; simp at h
      | ok q =>
        obtain ⟨res, pushes1⟩ := q
        simp only [hcall] at h
        cases hrest : handle_tool_call env rest with
        | error e => simp only [hrest] at h; simp at h
        | ok q' =>
          obtain ⟨msgs', ps⟩ := q'
          simp only [hrest, Except.ok.injEq, Prod.mk.injEq] at h
          obtain ⟨hmsgs, _⟩ := h
          rw [← hmsgs]
          have hhead : answeredIn prior tc.id = true := hans tc (by simp)
          have h1 : toolAnsweredAux prior
              ((Message.dict "tool" (Json.dumps res) (some tc.id) :: msgs') ++ tail) =
              toolAnsweredAux (prior ++ [Message.dict "tool" (Json.dumps res) (some tc.id)])
                (msgs' ++ tail) := by
            simp [toolAnsweredAux, Message.roleOf, Message.tcid, hhead]
          rw [h1, ih msgs' ps _ tail hrest
            (fun tc' htc' => answeredIn_mono prior _ tc'.id (hans tc' (by simp [htc'])))]
          rw [List.append_assoc]
          rfl

/-- Every tool message the generation loop appends answers a call of the
assistant message heading its round. -/
theorem genLoop_answered (env : Env) :
    ∀ (oracle : List ModelResponse) (prior : List Message) (out : GenOut),
      genLoop env oracle = Except.ok (some out) →
      toolAnsweredAux prior out.newMessages = true := by
  intro oracle
  induction oracle with
  | nil => intro prior out h; simp [genLoop] at h
  | cons resp rest ih =>
    intro prior out h
    by_cases hfr : resp.finish_reason = "tool_calls"
    · rw [genLoop, if_pos hfr] at h
      cases hd : handle_tool_call env resp.tool_calls with
      | error e => simp only [hd] at h; simp at h
      | ok p =>
        obtain ⟨results, pushes⟩ := p
        simp only [hd] at h
        cases hg : genLoop env rest with
        | error e => simp only [hg] at h; simp at h
        | ok o =>
          cases o with
          | none => simp only [hg] at h; simp at h
          | some out' =>
            simp only [hg, Except.ok.injEq, Option.some.injEq] at h
            rw [← h]
            have hassist : ∀ tc ∈ resp.tool_calls,
                answeredIn (prior ++ [Message.apiObj resp.content resp.tool_calls]) tc.id =
                  true := by
              intro tc htc
              simp only [answeredIn, List.any_append, Bool.or_eq_true]
              right
              simp only [List.any_cons, List.any_nil, Bool.or_false]
              simp only [Message.roleOf, Message.toolIds]
              refine (Bool.and_eq_true _ _).mpr ⟨by simp, ?_⟩
              rw [List.any_eq_true]
              exact ⟨tc.id, List.mem_map.mpr ⟨tc, htc, rfl⟩, by simp⟩
            show toolAnsweredAux prior
              ((Message.apiObj resp.content resp.tool_calls :: results) ++
                out'.newMessages) = true
            have hstep : toolAnsweredAux prior
                (Message.apiObj resp.content resp.tool_calls ::
                  (results ++ out'.newMessages)) =
                toolAnsweredAux (prior ++ [Message.apiObj resp.content resp.tool_calls])
                  (results ++ out'.newMessages) := by
              simp [toolAnsweredAux, Message.roleOf]
            rw [List.cons_append, hstep,
              toolAnswered_results env resp.tool_calls results pushes _ out'.newMessages
                hd hassist]
            exact ih _ out' hg
    · rw [genLoop, if_neg hfr] at h
      rw [Except.ok.injEq, Option.some.injEq] at h
      rw [← h]
      rfl

/-- C9: one dispatch round answers each issued tool call with exactly one
tool-role message carrying that call's id, in order, appended after the
assistant message that issued the calls; and in the buffer the generation
loop produces, every tool message is preceded by an assistant message
carrying the corresponding call id. -/
theorem tool_messages_answer_calls
    (env : Env) (calls : List ToolCall) (msgs : List Message) (pushes : List String)
    (oracle : List ModelResponse) (out : GenOut) :
    (handle_tool_call env calls = Except.ok (msgs, pushes) →
      msgs.map Message.tcid = calls.map (fun tc => some tc.id) ∧
      ∀ m ∈ msgs, m.roleOf = "tool") ∧
    (genLoop env oracle = Except.ok (some out) →
      toolAnsweredAux [] out.newMessages = true) :=
  ⟨handle_tool_call_ids env calls msgs pushes,
   genLoop_answered env oracle [] out⟩

/-- C9 (witness): a round with two tool calls produces exactly one tool
message per call id in order, and a complete loop buffer passes the
answered-check. -/
theorem tool_messages_answer_calls_witness :
    ([Message.dict "tool" "\x7b\"recorded\": \"ok\"\x7d" (some "a1"),
      Message.dict "tool" "\x7b\x7d" (some "b2")].map Message.tcid =
      [(⟨"a1", ⟨"record_unknown_question", "\x7b\"question\": \"q\"\x7d"⟩⟩ : ToolCall),
       ⟨"b2", ⟨"nope", "\x7b\x7d"⟩⟩].map (fun tc => some tc.id) ∧
      ∀ m ∈ [Message.dict "tool" "\x7b\"recorded\": \"ok\"\x7d" (some "a1"),
             Message.dict "tool" "\x7b\x7d" (some "b2")], m.roleOf = "tool") ∧
    toolAnsweredAux []
      [Message.apiObj ""
         [⟨"a1", ⟨"record_unknown_question", "\x7b\"question\": \"q\"\x7d"⟩⟩,
          ⟨"b2", ⟨"nope", "\x7b\x7d"⟩⟩],
       Message.dict "tool" "\x7b\"recorded\": \"ok\"\x7d" (some "a1"),
       Message.dict "tool" "\x7b\x7d" (some "b2")] = true :=
  ⟨(tool_messages_answer_calls ⟨none, none, none⟩
      [⟨"a1", ⟨"record_unknown_question", "\x7b\"question\": \"q\"\x7d"⟩⟩,
       ⟨"b2", ⟨"nope", "\x7b\x7d"⟩⟩]
      [Message.dict "tool" "\x7b\"recorded\": \"ok\"\x7d" (some "a1"),
       Message.dict "tool" "\x7b\x7d" (some "b2")] []
      [] ⟨"", [], [], 1⟩).1 rfl,
   (tool_messages_answer_calls ⟨none, none, none⟩ [] [] []
      [⟨"tool_calls", "",
         [⟨"a1", ⟨"record_unknown_question", "\x7b\"question\": \"q\"\x7d"⟩⟩,
          ⟨"b2", ⟨"nope", "\x7b\x7d"⟩⟩]⟩,
       ⟨"stop", "done", []⟩]
      ⟨"done",
       [Message.apiObj ""
          [⟨"a1", ⟨"record_unknown_question", "\x7b\"question\": \"q\"\x7d"⟩⟩,
           ⟨"b2", ⟨"nope", "\x7b\x7d"⟩⟩],
        Message.dict "tool" "\x7b\"recorded\": \"ok\"\x7d" (some "a1"),
        Message.dict "tool" "\x7b\x7d" (some "b2")],
       [], 2⟩).2 rfl⟩

/-- No successful invocation of a resolved module global can produce the
`"{}"` payload of the fallback branch: the declared tools return
`{"recorded": "ok"}`, `push` returns `None`, and the other globals raise. -/
theorem callGlobal_result_not_empty_obj (env : Env) (g : PyCallable) (j : Json)
    (res : Json) (p : List String)
    (h : callGlobal env g j = Except.ok (res, p)) : Json.dumps res ≠ "\x7b\x7d" := by
  cases j with
  | obj kvs =>
    cases g with
    | pushFn =>
      simp only [callGlobal] at h
      split at h
      · simp at h
      · split at h
        · simp at h
        · rw [Except.ok.injEq, Prod.mk.injEq] at h
          rw [← h.1]
          decide
    | recordUserDetailsFn =>
      simp only [callGlobal] at h
      split at h
      · simp at h
      · split at h
        · simp at h
        · rw [Except.ok.injEq, Prod.mk.injEq] at h
          rw [← h.1]
          show Json.dumps (Json.obj [("recorded", Json.str "ok")]) ≠ "\x7b\x7d"
          decide
    | recordUnknownQuestionFn =>
      simp only [callGlobal] at h
      split at h
      · simp at h
      · split at h
        · simp at h
        · rw [Except.ok.injEq, Prod.mk.injEq] at h
          rw [← h.1]
          show Json.dumps (Json.obj [("recorded", Json.str "ok")]) ≠ "\x7b\x7d"
          decide
    | nonToolGlobal n => simp [callGlobal] at h
    | falsyGlobal n => simp [callGlobal] at h
  | null => simp [callGlobal] at h
  | bool b => simp [callGlobal] at h
  | num n => simp [callGlobal] at h
  | str s => simp [callGlobal] at h
  | arr xs => simp [callGlobal] at h

/-- C10 (counterexample to the claim as stated): `"__spec__"` is a
module-level binding of the script-run program (bound to `None`), yet
dispatching a ToolCall named `"__spec__"` takes the empty-object fallback
instead of invoking the resolved global: the source's guard
`... if tool else {}` tests truthiness, not presence, so the fallback is
not taken "only when the name is absent from all module globals". -/
theorem dispatch_namespace_claim_cex :
    (globalsGet "__spec__" ≠ none) ∧
    handle_tool_call ⟨none, none, none⟩ [⟨"c5", ⟨"__spec__", "\x7b\x7d"⟩⟩] =
      Except.ok ([Message.dict "tool" "\x7b\x7d" (some "c5")], []) :=
  ⟨by decide, rfl⟩

/-- C10 (amended): tool-name dispatch resolves over the module's entire
script-run global namespace — every module-level binding resolves and only
those — and a name bound to a truthy value, including non-tool bindings
like `push` (genuinely invoked with the decoded arguments: its notification
side effect fires and its `None` return serializes as `"null"`) and `Me`,
is invoked with the decoded arguments; but the source guards invocation by
Python truthiness, so the empty-object fallback is produced exactly when
the name is absent from the module globals or bound to a falsy value (such
as `__spec__`). -/
theorem dispatch_truthy_over_module_globals :
    (∀ n, n ∈ moduleGlobals.map Prod.fst → globalsGet n ≠ none) ∧
    (∀ n, ¬ n ∈ moduleGlobals.map Prod.fst → globalsGet n = none) ∧
    (handle_tool_call ⟨some "tok", some "usr", none⟩
       [⟨"call_9", ⟨"push", "\x7b\"text\": \"hello\"\x7d"⟩⟩] =
       Except.ok ([Message.dict "tool" "null" (some "call_9")], ["hello"])) ∧
    (globalsGet "Me" = some (PyCallable.nonToolGlobal "Me")) ∧
    (globalsGet "__spec__" = some (PyCallable.falsyGlobal "__spec__")) ∧
    (∀ env (tc : ToolCall) j, Json.parse tc.function.arguments = some j →
      (handle_tool_call env [tc] =
          Except.ok ([Message.dict "tool" "\x7b\x7d" (some tc.id)], []) ↔
        fallbackTaken tc.function.name = true)) := by
  refine ⟨?_, ?_, by rfl, by rfl, by rfl, ?_⟩
  · intro n hn hcontra
    obtain ⟨p, hmem, hp1⟩ := List.mem_map.mp hn
    rw [globalsGet, Option.map_eq_none'] at hcontra
    rw [List.find?_eq_none] at hcontra
    exact hcontra p hmem (by simp [hp1])
  · intro n hn
    rw [globalsGet, Option.map_eq_none']
    rw [List.find?_eq_none]
    intro p hmem hp1
    simp only [decide_eq_true_eq] at hp1
    exact hn (List.mem_map.mpr ⟨p, hmem, hp1⟩)
  · intro env tc j hp
    constructor
    · intro heq
      cases hg : globalsGet tc.function.name with
      | none => simp [fallbackTaken, hg]
      | some g =>
        cases htr : g.pyTruthy with
        | false => simp [fallbackTaken, hg, htr]
        | true =>
          exfalso
          simp only [handle_tool_call, hp, dispatchTool, hg, htr, if_true] at heq
          cases hcall : callGlobal env g j with
          | error e => simp only [hcall] at heq; simp at heq
          | ok q =>
            obtain ⟨res, pushes1⟩ := q
            simp only [hcall] at heq
            simp only [handle_tool_call, Except.ok.injEq, Prod.mk.injEq, List.append_nil,
              List.cons.injEq, Message.dict.injEq] at heq
            exact callGlobal_result_not_empty_obj env g j res pushes1 hcall heq.1.1.2.1
    · intro hfb
      cases hg : globalsGet tc.function.name with
      | none =>
        simp only [handle_tool_call, hp, dispatchTool, hg]
        rfl
      | some g =>
        have htr : g.pyTruthy = false := by
          simp only [fallbackTaken, hg, Bool.not_eq_true'] at hfb
          exact hfb
        simp only [handle_tool_call, hp, dispatchTool, hg, htr]
        rfl

/-- C10 (witness): `"push"` resolves, a name outside the module globals
does not, a `push` dispatch fires the notification and serializes `None`,
an unknown name gets the `{}` fallback, and `"__name__"` (a truthy dunder)
is genuinely invoked rather than falling back — it raises. -/
theorem dispatch_truthy_over_module_globals_witness :
    (globalsGet "push" ≠ none) ∧
    (globalsGet "frobnicate" = none) ∧
    (handle_tool_call ⟨some "tok", some "usr", none⟩
       [⟨"call_9", ⟨"push", "\x7b\"text\": \"hello\"\x7d"⟩⟩] =
       Except.ok ([Message.dict "tool" "null" (some "call_9")], ["hello"])) ∧
    (handle_tool_call ⟨none, none, none⟩ [⟨"c1", ⟨"frobnicate", "\x7b\x7d"⟩⟩] =
       Except.ok ([Message.dict "tool" "\x7b\x7d" (some "c1")], [])) ∧
    (handle_tool_call ⟨none, none, none⟩ [⟨"c3", ⟨"__name__", "\x7b\x7d"⟩⟩] =
       Except.error "TypeError: module-level object is not usable as a tool: __name__") :=
  ⟨dispatch_truthy_over_module_globals.1 "push" (by decide),
   dispatch_truthy_over_module_globals.2.1 "frobnicate" (by decide),
   dispatch_truthy_over_module_globals.2.2.1,
   (dispatch_truthy_over_module_globals.2.2.2.2.2 ⟨none, none, none⟩
     ⟨"c1", ⟨"frobnicate", "\x7b\x7d"⟩⟩ (Json.obj []) rfl).mpr rfl,
   rfl⟩
